import Mathlib

/-!
Verification of the orchestration core of the supersol_poc repository.

The Python code is shallowly embedded: Python values (the JSON-like data
that flows between agents) become the inductive type PyVal, Python dicts
become association lists with string keys, fallible code returns Except
or Option, and the asynchronous retry loop becomes a pure function that
additionally reports the total delay slept and the number of attempts.

Embedded components and their sources:
 - schema validation: agents/base_agent.py (also ver0.2/agents/base_agent.py,
   the two copies are textually identical for these methods)
 - retry loop: agents/base_agent.py execute
 - ver0.2 agent chain: ver0.2/agents/base_agent.py execute and
   ver0.2/services/agent_manager.py
 - response generation: ver0.2/services/response_generator.py
 - configuration loading: models/agent_config.py
 - state extraction: services/chat_service.py (same code in
   ver0.2/services/chat_service.py)
 - v1 orchestration: services/chat_service.py process_chat
-/

set_option maxHeartbeats 1000000

/-- A Python runtime value as it occurs in this codebase: the JSON-like
data exchanged between agents.  Dict keys are strings throughout the
repository. -/
inductive PyVal where
  | none
  | bool (b : Bool)
  | int (n : Int)
  | str (s : String)
  | list (xs : List PyVal)
  | dict (fs : List (String × PyVal))

/-- A Python dict with string keys, in insertion order. -/
abbrev PyDict := List (String × PyVal)

/-- First value bound to a key, mirroring Python dict lookup (Python dicts
have unique keys; on the association list the first binding wins). -/
def dictLookup : PyDict → String → Option PyVal
  | [], _ => Option.none
  | (k, v) :: rest, key => if k = key then some v else dictLookup rest key

/-- Python d.get(key, default). -/
def pyGetD (fs : PyDict) (k : String) (d : PyVal) : PyVal :=
  (dictLookup fs k).getD d

/-- Python truthiness of a value, as used in if-tests and d.get(...) or checks. -/
def truthy : PyVal → Bool
  | .none => false
  | .bool b => b
  | .int n => decide (n ≠ 0)
  | .str s => decide (s ≠ "")
  | .list xs => !xs.isEmpty
  | .dict fs => !fs.isEmpty

/-- A successful dict lookup returns a structurally smaller value (a def so
it can justify termination of definitions below). -/
def dictLookup_sizeOf_lt {fs : PyDict} {k : String} {v : PyVal}
    (h : dictLookup fs k = some v) : sizeOf v < sizeOf fs := by
  induction fs with
  | nil => simp [dictLookup] at h
  | cons p rest ih =>
    obtain ⟨k2, w⟩ := p
    by_cases hk : k2 = k
    · simp [dictLookup, hk] at h
      subst h
      simp only [List.cons.sizeOf_spec, Prod.mk.sizeOf_spec]
      omega
    · simp [dictLookup, hk] at h
      have := ih h
      simp only [List.cons.sizeOf_spec, Prod.mk.sizeOf_spec]
      omega

mutual

/-- BaseAgent._validate_field (agents/base_agent.py lines 107-139).  The
schema itself is Python data: a list schema checks the value is a list and
validates every element against the first element schema; a dict schema
checks the value is a dict and validates only those keys of the value that
the schema declares; the string tags check the runtime type (Python counts
bool as int, so the int tag accepts bool); any other schema value imposes no
constraint.  Returns the first violation, tagged with the field path. -/
def validateField (value schema : PyVal) (path : String) : Option String :=
  match schema with
  | .list es =>
    match value with
    | .list xs =>
      match es with
      | [] => Option.none
      | s0 :: _ => validateListElems xs s0 path 0
    | _ => some ("Field " ++ path ++ " must be a list")
  | .dict sfs =>
    match value with
    | .dict vfs => validateDictItems vfs sfs path
    | _ => some ("Field " ++ path ++ " must be a dictionary")
  | .str t =>
    if t = "string" then
      match value with
      | .str _ => Option.none
      | _ => some ("Field " ++ path ++ " must be a string")
    else if t = "int" then
      match value with
      | .int _ => Option.none
      | .bool _ => Option.none
      | _ => some ("Field " ++ path ++ " must be an integer")
    else if t = "object" then
      match value with
      | .dict _ => Option.none
      | _ => some ("Field " ++ path ++ " must be an object")
    else Option.none
  | _ => Option.none
termination_by sizeOf value
decreasing_by all_goals simp_wf <;> omega

/-- The element loop of _validate_field for list schemas. -/
def validateListElems (xs : List PyVal) (s0 : PyVal) (path : String) (i : Nat) : Option String :=
  match xs with
  | [] => Option.none
  | x :: rest =>
    match validateField x s0 (path ++ "[" ++ toString i ++ "]") with
    | some e => some e
    | Option.none => validateListElems rest s0 path (i + 1)
termination_by sizeOf xs
decreasing_by all_goals simp_wf <;> omega

/-- The key loop of _validate_field for dict schemas: iterates over the
VALUE items and checks a key only when the schema also declares it. -/
def validateDictItems (vfs : PyDict) (sfs : PyDict) (path : String) : Option String :=
  match vfs with
  | [] => Option.none
  | (k, v) :: rest =>
    match dictLookup sfs k with
    | some sk =>
      match validateField v sk (path ++ "." ++ k) with
      | some e => some e
      | Option.none => validateDictItems rest sfs path
    | Option.none => validateDictItems rest sfs path
termination_by sizeOf vfs
decreasing_by all_goals simp_wf <;> omega

end

/-- BaseAgent._validate_schema (agents/base_agent.py lines 98-105): every
field declared at the TOP level of the schema must be present in the data;
each present field is then validated with _validate_field. -/
def validateSchema (data : PyDict) (schemaItems : PyDict) (dataType : String) : Option String :=
  match schemaItems with
  | [] => Option.none
  | (fn, fs) :: rest =>
    match dictLookup data fn with
    | Option.none => some ("Missing required " ++ dataType ++ " field: " ++ fn)
    | some fv =>
      match validateField fv fs (dataType ++ "." ++ fn) with
      | some e => some e
      | Option.none => validateSchema data rest dataType
  termination_by sizeOf schemaItems

/-- BaseAgent._validate_input (agents/base_agent.py lines 76-85): the input
must be a dict; when an input format is configured its schema is applied. -/
def validateInput (inputData : PyVal) (inputSchema : Option PyDict) : Option String :=
  match inputData with
  | .dict fs =>
    match inputSchema with
    | some si => validateSchema fs si "input"
    | Option.none => Option.none
  | _ => some "Input data must be a dictionary"

mutual

/-- The specification notion of conformance from the claim: every field
declared by the schema is present in the value with the matching structural
type, recursively at every nesting level of object and list schemas; extra
keys in the value are ignored. -/
def specFieldOK (value schema : PyVal) : Bool :=
  match schema with
  | .list es =>
    match value with
    | .list xs =>
      match es with
      | [] => true
      | s0 :: _ => specElemsOK xs s0
    | _ => false
  | .dict sfs =>
    match value with
    | .dict vfs => specDictOK vfs sfs
    | _ => false
  | .str t =>
    if t = "string" then
      match value with
      | .str _ => true
      | _ => false
    else if t = "int" then
      match value with
      | .int _ => true
      | .bool _ => true
      | _ => false
    else if t = "object" then
      match value with
      | .dict _ => true
      | _ => false
    else true
  | _ => true
termination_by (sizeOf value, 0)
decreasing_by all_goals simp_wf <;> omega

/-- All elements conform to the element schema. -/
def specElemsOK (xs : List PyVal) (s0 : PyVal) : Bool :=
  match xs with
  | [] => true
  | x :: rest => specFieldOK x s0 && specElemsOK rest s0
termination_by (sizeOf xs, 0)
decreasing_by all_goals simp_wf <;> omega

/-- Every DECLARED key is present in the value and conforms (this is what
the spec sentence requires of object schemas at every nesting level). -/
def specDictOK (vfs sfs : PyDict) : Bool :=
  match sfs with
  | [] => true
  | (k, sk) :: rest =>
    (match h : dictLookup vfs k with
     | some v => specFieldOK v sk
     | Option.none => false) && specDictOK vfs rest
termination_by (sizeOf vfs, sizeOf sfs)
decreasing_by
  all_goals simp_wf
  · have := dictLookup_sizeOf_lt h
    omega
  · omega

end

/-- Top-level spec conformance for _validate_schema: every declared field
present and recursively conforming. -/
def specSchemaOK (data : PyDict) (schemaItems : PyDict) : Bool :=
  schemaItems.all (fun p =>
    match dictLookup data p.1 with
    | some v => specFieldOK v p.2
    | Option.none => false)

mutual

/-- Amended notion of conformance that the code actually decides: identical
to specFieldOK except in the object case, where only the keys PRESENT in the
value are checked against the schema -- a declared key missing from a nested
object is not an error. -/
def amendedFieldOK (value schema : PyVal) : Bool :=
  match schema with
  | .list es =>
    match value with
    | .list xs =>
      match es with
      | [] => true
      | s0 :: _ => amendedElemsOK xs s0
    | _ => false
  | .dict sfs =>
    match value with
    | .dict vfs => amendedItemsOK vfs sfs
    | _ => false
  | .str t =>
    if t = "string" then
      match value with
      | .str _ => true
      | _ => false
    else if t = "int" then
      match value with
      | .int _ => true
      | .bool _ => true
      | _ => false
    else if t = "object" then
      match value with
      | .dict _ => true
      | _ => false
    else true
  | _ => true
termination_by sizeOf value
decreasing_by all_goals simp_wf <;> omega

/-- All elements conform to the element schema. -/
def amendedElemsOK (xs : List PyVal) (s0 : PyVal) : Bool :=
  match xs with
  | [] => true
  | x :: rest => amendedFieldOK x s0 && amendedElemsOK rest s0
termination_by sizeOf xs
decreasing_by all_goals simp_wf <;> omega

/-- Every key of the VALUE that the schema declares conforms. -/
def amendedItemsOK (vfs sfs : PyDict) : Bool :=
  match vfs with
  | [] => true
  | (k, v) :: rest =>
    (match dictLookup sfs k with
     | some sk => amendedFieldOK v sk
     | Option.none => true) && amendedItemsOK rest sfs
termination_by sizeOf vfs
decreasing_by all_goals simp_wf <;> omega

end

/-- Amended top-level conformance: every declared top-level field present in
the data and amended-conforming. -/
def amendedSchemaOK (data : PyDict) (schemaItems : PyDict) : Bool :=
  schemaItems.all (fun p =>
    match dictLookup data p.1 with
    | some v => amendedFieldOK v p.2
    | Option.none => false)

/-- Outcome of BaseAgent.execute: a success value, a raised error, or the
implicit Python None returned when the retry loop body never runs. -/
inductive RetryOutcome (E A : Type) where
  | success (r : A)
  | failure (e : E)
  | noResult
deriving DecidableEq

/-- The retry loop of BaseAgent.execute (agents/base_agent.py lines 43-74),
with the stage body abstracted as the attempt-indexed outcome function f.
Returns the outcome, the total delay slept, and the number of attempts made.
Before retrying after failed attempt a (0-based) it sleeps
min(retry_delay * 2 ^ a, retry_delay_max); after the last allowed attempt the
error is re-raised without sleeping. -/
def executeRetryLoop {E A : Type} (f : Nat → Except E A) (base maxD : Int) :
    Nat → Nat → RetryOutcome E A × Int × Nat
  | _, 0 => (.noResult, 0, 0)
  | attempt, remaining + 1 =>
    match f attempt with
    | .ok v => (.success v, 0, 1)
    | .error e =>
      if remaining = 0 then (.failure e, 0, 1)
      else
        let d := min (base * 2 ^ attempt) maxD
        let r := executeRetryLoop f base maxD (attempt + 1) remaining
        (r.1, d + r.2.1, r.2.2 + 1)

/-- BaseAgent.execute: run up to max_retries attempts starting at attempt 0.
Python range(n) on a non-positive int is empty, hence toNat. -/
def executeRetry {E A : Type} (f : Nat → Except E A) (base maxD maxRetries : Int) :
    RetryOutcome E A × Int × Nat :=
  executeRetryLoop f base maxD 0 maxRetries.toNat

/-- AgentManager._merge_results (ver0.2/services/agent_manager.py lines
146-150): merged = current.copy(); merged.update(next).  On insertion-ordered
dicts: existing keys keep their position but take the value from next when
next has one; keys only in next are appended in next order. -/
def pyUpdate (cur next : PyDict) : PyDict :=
  cur.map (fun p => (p.1, (dictLookup next p.1).getD p.2))
    ++ next.filter (fun p => (dictLookup cur p.1).isNone)

/-- Python repr of a string: single-quoted unless the string holds a single
quote and no double quote, with the usual escapes. -/
def pyReprStr (s : String) : String :=
  let sq : Char := Char.ofNat 39
  let q : Char := if s.contains sq && !s.contains (Char.ofNat 34) then Char.ofNat 34 else sq
  let esc : Char → String := fun c =>
    if c = '\\' then "\\\\"
    else if c = q then "\\" ++ String.singleton q
    else if c = '\n' then "\\n"
    else if c = '\r' then "\\r"
    else if c = '\t' then "\\t"
    else String.singleton c
  String.singleton q ++ String.join (s.toList.map esc) ++ String.singleton q

mutual

/-- Python repr() of a value, reached by str() on container elements. -/
def pyRepr : PyVal → String
  | .none => "None"
  | .bool true => "True"
  | .bool false => "False"
  | .int n => toString n
  | .str s => pyReprStr s
  | .list xs => "[" ++ pyReprJoin xs ++ "]"
  | .dict fs => "\x7b" ++ pyReprEntries fs ++ "\x7d"
termination_by v => sizeOf v
decreasing_by all_goals simp_wf <;> omega

/-- Comma-joined reprs of list elements. -/
def pyReprJoin : List PyVal → String
  | [] => ""
  | [x] => pyRepr x
  | x :: rest => pyRepr x ++ ", " ++ pyReprJoin rest
termination_by xs => sizeOf xs
decreasing_by all_goals simp_wf <;> omega

/-- Comma-joined key: value reprs of dict entries. -/
def pyReprEntries : List (String × PyVal) → String
  | [] => ""
  | [(k, v)] => pyReprStr k ++ ": " ++ pyRepr v
  | (k, v) :: rest => pyReprStr k ++ ": " ++ pyRepr v ++ ", " ++ pyReprEntries rest
termination_by fs => sizeOf fs
decreasing_by all_goals simp_wf <;> omega

end

/-- Python str() for the values of this codebase, as used by f-strings:
identical to repr() except on a top-level string, which is taken verbatim. -/
def pyStr : PyVal → String
  | .str s => s
  | v => pyRepr v

/-- Python sep.join(x): joins a list of strings, the characters of a string,
or the keys of a dict; anything else raises TypeError (as does a list with a
non-string element). -/
def pyJoin (sep : String) (v : PyVal) : Except String String :=
  match v with
  | .list xs =>
    match xs.mapM (fun x => match x with | .str s => Except.ok s | _ => Except.error "TypeError") with
    | .ok ss => .ok (String.intercalate sep ss)
    | .error e => .error e
  | .str s => .ok (String.intercalate sep (s.toList.map String.singleton))
  | .dict fs => .ok (String.intercalate sep (fs.map (fun p => p.1)))
  | _ => .error "TypeError"

/-- Python attribute access v.get(key, default): only dicts have it. -/
def pyGet (v : PyVal) (k : String) (d : PyVal) : Except String PyVal :=
  match v with
  | .dict fs => .ok (pyGetD fs k d)
  | _ => .error "AttributeError"

/-- Python v != "some string": strings compare by content, any other type is
unequal to a string. -/
def pyNeStr (v : PyVal) (s : String) : Bool :=
  match v with
  | .str t => decide (t ≠ s)
  | _ => true

/-- Python v == "some string". -/
def pyEqStr (v : PyVal) (s : String) : Bool :=
  match v with
  | .str t => decide (t = s)
  | _ => false

/-- ResponseGenerator._generate_direct_response: the response field of the
tool output (or str of a non-dict) if truthy, else a fixed apology. -/
def generateDirectResponse (toolOutput : PyVal) : Except String PyVal :=
  let response : PyVal :=
    match toolOutput with
    | .dict fs => pyGetD fs "response" (.str "")
    | v => .str (pyStr v)
  .ok (if truthy response then response
       else .str "죄송합니다. 답변을 생성하는 중 오류가 발생했습니다.")

/-- ResponseGenerator._generate_account_balance_response. -/
def generateAccountBalanceResponse (toolOutput customerName selectedAccount : PyVal) :
    Except String PyVal := do
  let balance ← pyGet toolOutput "balance" (.str "알 수 없음")
  let accountNumber ← pyGet toolOutput "account_number"
    (if truthy selectedAccount then selectedAccount else .str "현재 계좌")
  if pyNeStr customerName "고객" then
    return .str (pyStr customerName ++ "님, " ++ pyStr accountNumber ++ "의 현재 잔액은 "
      ++ pyStr balance ++ "입니다.")
  else
    return .str (pyStr accountNumber ++ "의 현재 잔액은 " ++ pyStr balance ++ "입니다.")

/-- ResponseGenerator._generate_transfer_response. -/
def generateTransferResponse (toolOutput customerName : PyVal) : Except String PyVal := do
  let status ← pyGet toolOutput "status" (.str "실패")
  if pyEqStr status "success" then
    let amount ← pyGet toolOutput "amount" (.str "0")
    let recipient ← pyGet toolOutput "recipient" (.str "")
    if pyNeStr customerName "고객" then
      return .str (pyStr customerName ++ "님, " ++ pyStr recipient ++ "에게 "
        ++ pyStr amount ++ " 송금이 완료되었습니다.")
    else
      return .str (pyStr recipient ++ "에게 " ++ pyStr amount ++ " 송금이 완료되었습니다.")
  else
    return .str "송금 처리 중 오류가 발생했습니다."

/-- ResponseGenerator._generate_loan_response. -/
def generateLoanResponse (toolOutput customerName : PyVal) : Except String PyVal := do
  let availableAmount ← pyGet toolOutput "available_loan_amount" (.str "알 수 없음")
  let interestRate ← pyGet toolOutput "interest_rate" (.str "알 수 없음")
  if pyNeStr customerName "고객" then
    return .str (pyStr customerName ++ "님, 대출 가능 금액은 " ++ pyStr availableAmount
      ++ "이며, 현재 이자율은 " ++ pyStr interestRate ++ "입니다.")
  else
    return .str ("대출 가능 금액은 " ++ pyStr availableAmount ++ "이며, 현재 이자율은 "
      ++ pyStr interestRate ++ "입니다.")

/-- ResponseGenerator._generate_investment_response. -/
def generateInvestmentResponse (toolOutput customerName : PyVal) : Except String PyVal := do
  let products ← pyGet toolOutput "products" (.list [])
  let rates ← pyGet toolOutput "current_rates" (.dict [])
  let joined ← pyJoin ", " products
  if pyNeStr customerName "고객" then
    return .str (pyStr customerName ++ "님, 투자 가능한 상품: " ++ joined
      ++ ". 현재 금리: " ++ pyStr rates)
  else
    return .str ("투자 가능한 상품: " ++ joined ++ ". 현재 금리: " ++ pyStr rates)

/-- ResponseGenerator._generate_exchange_response. -/
def generateExchangeResponse (toolOutput customerName : PyVal) : Except String PyVal := do
  let exchangeRate ← pyGet toolOutput "exchange_rate" (.str "알 수 없음")
  let convertedAmount ← pyGet toolOutput "converted_amount" (.str "알 수 없음")
  let currency ← pyGet toolOutput "currency" (.str "")
  if pyNeStr customerName "고객" then
    return .str (pyStr customerName ++ "님, " ++ pyStr currency ++ " 환율은 "
      ++ pyStr exchangeRate ++ "이며, 환전 금액은 " ++ pyStr convertedAmount ++ "입니다.")
  else
    return .str (pyStr currency ++ " 환율은 " ++ pyStr exchangeRate ++ "이며, 환전 금액은 "
      ++ pyStr convertedAmount ++ "입니다.")

/-- ResponseGenerator._generate_auto_transfer_response. -/
def generateAutoTransferResponse (toolOutput customerName : PyVal) : Except String PyVal := do
  let status ← pyGet toolOutput "status" (.str "실패")
  if pyEqStr status "success" then
    let amount ← pyGet toolOutput "amount" (.str "0")
    let schedule ← pyGet toolOutput "schedule" (.str "")
    let recipient ← pyGet toolOutput "recipient" (.str "")
    if pyNeStr customerName "고객" then
      return .str (pyStr customerName ++ "님, " ++ pyStr recipient ++ "에게 "
        ++ pyStr amount ++ " " ++ pyStr schedule ++ " 자동이체가 등록되었습니다.")
    else
      return .str (pyStr recipient ++ "에게 " ++ pyStr amount ++ " " ++ pyStr schedule
        ++ " 자동이체가 등록되었습니다.")
  else
    return .str "자동이체 등록 중 오류가 발생했습니다."

/-- ResponseGenerator._generate_service_condition_response. -/
def generateServiceConditionResponse (toolOutput customerName : PyVal) : Except String PyVal := do
  let conditions ← pyGet toolOutput "conditions" (.str "서비스 이용 조건을 확인해주세요.")
  let requirements ← pyGet toolOutput "requirements" (.list [])
  let fees ← pyGet toolOutput "fees" (.str "")
  let base : String :=
    if pyNeStr customerName "고객" then pyStr customerName ++ "님, " ++ pyStr conditions
    else pyStr conditions
  let withReq : String ←
    if truthy requirements then do
      let joined ← pyJoin ", " requirements
      pure (base ++ " 필요 서류: " ++ joined)
    else pure base
  if truthy fees then
    return .str (withReq ++ " 수수료: " ++ pyStr fees)
  else
    return .str withReq

/-- ResponseGenerator._generate_default_response: the response field of a
dict output (default str of the dict), or str of a non-dict, prefixed with
the customer name when known. -/
def generateDefaultResponse (toolOutput customerName : PyVal) : Except String PyVal :=
  let response : PyVal :=
    match toolOutput with
    | .dict fs => pyGetD fs "response" (.str (pyStr (.dict fs)))
    | v => .str (pyStr v)
  if pyNeStr customerName "고객" then
    .ok (.str (pyStr customerName ++ "님, " ++ pyStr response))
  else
    .ok response

/-- ResponseGenerator.generate_response (ver0.2/services/response_generator.py
lines 6-30): resolve the customer name and selected account, then dispatch on
the tool name; unknown tool names fall back to the default generator, and an
unhashable tool name raises.  Errors raised here are caught by the caller in
process_chat, which substitutes a fixed apology. -/
def generateResponse (toolName toolOutput customerInfo context : PyVal) :
    Except String PyVal := do
  let customerName ←
    if truthy customerInfo then pyGet customerInfo "name" (.str "고객")
    else pure (PyVal.str "고객")
  let currentState ←
    if truthy context then pyGet context "current_state" (.dict [])
    else pure (PyVal.dict [])
  let selectedAccount ← pyGet currentState "selected_account" .none
  match toolName with
  | .str s =>
    if s = "direct_response" then generateDirectResponse toolOutput
    else if s = "account_balance" then
      generateAccountBalanceResponse toolOutput customerName selectedAccount
    else if s = "transfer_money" then generateTransferResponse toolOutput customerName
    else if s = "loan_info" then generateLoanResponse toolOutput customerName
    else if s = "investment_info" then generateInvestmentResponse toolOutput customerName
    else if s = "exchange_rate" then generateExchangeResponse toolOutput customerName
    else if s = "auto_transfer" then generateAutoTransferResponse toolOutput customerName
    else if s = "service_condition" then
      generateServiceConditionResponse toolOutput customerName
    else generateDefaultResponse toolOutput customerName
  | .list _ => .error "TypeError"
  | .dict _ => .error "TypeError"
  | _ => generateDefaultResponse toolOutput customerName

/-- An agent of the ver0.2 registry, abstracting exactly the per-agent pieces
BaseAgent.execute reads: the configured successor list (config.next_agent),
the retry bound (config.max_retries), the outcome of one
validate-process-validate attempt (attempt-indexed so that the retry loop is
visible), and the agent-specific _prepare_next_agent_input override (the base
implementation passes the current result through unchanged). -/
structure AgentSpec where
  name : String
  nextAgent : List String
  maxRetries : Int
  run : Nat → PyDict → Except String PyDict
  prep : PyDict → PyDict → PyDict

/-- AgentManager.get_next_agent (ver0.2/services/agent_manager.py lines
44-77): a truthy should_skip_next_agent flag in the result means stop; an
empty successor list means stop; otherwise the first successor is looked up
in the registry (reg models the composite config-name-then-direct lookup of
get_agent_by_config_name and get_agent); an unknown name yields nothing.
Internal exceptions are caught and also yield nothing. -/
def getNextAgent (reg : String → Option AgentSpec) (a : AgentSpec) (result : PyDict) :
    Option AgentSpec :=
  if truthy (pyGetD result "should_skip_next_agent" (.bool false)) then Option.none
  else
    match a.nextAgent with
    | [] => Option.none
    | n :: _ => reg n

mutual

/-- BaseAgent.execute of ver0.2 (ver0.2/agents/base_agent.py lines 48-101)
as invoked with an agent_manager: the retry loop around one
validate-process-validate attempt, followed on success by the next-agent
block.  Also returns the names of the agents whose body ran, one entry per
attempt, for chain instrumentation.  The fuel argument bounds the recursion
depth that Python bounds with its recursion limit. -/
def executeV2 (reg : String → Option AgentSpec) (fuel : Nat) (a : AgentSpec)
    (input : PyDict) : RetryOutcome String PyDict × List String :=
  executeV2Loop reg fuel a input 0 a.maxRetries.toNat
termination_by (fuel, a.maxRetries.toNat + 1)

/-- The attempt loop of ver0.2 execute.  On a failed attempt it retries while
attempts remain and re-raises the last error otherwise; on a successful
attempt, when a successor is configured and the skip flag is not truthy, it
calls the successor chain and merges, swallowing any exception from the
successor call (returning the current validated output alone); a successor
chain that returns None makes the merge raise TypeError, which the same
handler swallows. -/
def executeV2Loop (reg : String → Option AgentSpec) (fuel : Nat) (a : AgentSpec)
    (input : PyDict) (attempt remaining : Nat) :
    RetryOutcome String PyDict × List String :=
  match remaining with
  | 0 => (.noResult, [])
  | remaining1 + 1 =>
    match a.run attempt input with
    | .error e =>
      if remaining1 = 0 then (.failure e, [a.name])
      else
        let r := executeV2Loop reg fuel a input (attempt + 1) remaining1
        (r.1, a.name :: r.2)
    | .ok out =>
      if a.nextAgent.isEmpty then (.success out, [a.name])
      else if truthy (pyGetD out "should_skip_next_agent" (.bool false)) then
        (.success out, [a.name])
      else
        match getNextAgent reg a out with
        | Option.none => (.success (pyUpdate out []), [a.name])
        | some next =>
          match fuel with
          | 0 => (.success out, [a.name])
          | fuel1 + 1 =>
            let r := executeV2 reg fuel1 next (a.prep out input)
            match r.1 with
            | .success nr => (.success (pyUpdate out nr), a.name :: r.2)
            | _ => (.success out, a.name :: r.2)
termination_by (fuel, remaining)

end

/-- AgentManager._prepare_next_agent_input (ver0.2/services/agent_manager.py
lines 117-144): the adapter that builds the successor input from the current
result and the original input, keyed by the current agent name. -/
def managerPrepNext (currentName : String) (currentResult originalInput : PyDict) : PyDict :=
  if currentName = "rewriting" then
    [("rewritten_text", pyGetD currentResult "rewritten_text" (.str "")),
     ("topic", pyGetD currentResult "topic" (.str "")),
     ("conversation_context", pyGetD originalInput "conversation_context" (.list [])),
     ("current_state", pyGetD originalInput "current_state" (.dict []))]
  else if currentName = "preprocessing" then
    [("normalized_text", pyGetD currentResult "normalized_text" (.str "")),
     ("intent", pyGetD currentResult "intent" (.str "")),
     ("slot", pyGetD currentResult "slot" (.list [])),
     ("conversation_context", pyGetD originalInput "conversation_context" (.list [])),
     ("current_state", pyGetD originalInput "current_state" (.dict []))]
  else if currentName = "supervisor" then
    [("target_domain", pyGetD currentResult "target_domain" (.str "")),
     ("normalized_text", pyGetD currentResult "normalized_text" (.str "")),
     ("intent", pyGetD currentResult "intent" (.str "")),
     ("slot", pyGetD currentResult "slot" (.list [])),
     ("context", pyGetD originalInput "context" (.dict []))]
  else currentResult

/-- An exception escaping AgentManager.execute_workflow. -/
inductive WorkflowErr where
  | startNotFound (n : String)
  | stageError (e : String)
  | typeError
  | recursionLimit

/-- AgentManager.execute_workflow (ver0.2/services/agent_manager.py lines
79-115): look up the start agent (unknown start raises), execute it (with the
manager, so the agent itself may already chain), then route with
get_next_agent on the merged result, prepare the successor input and recurse,
merging the recursive result.  A stage error that execute re-raises
propagates; an execute that returned None makes get_next_agent swallow its
error and end the chain with None as the workflow result; merging a None
recursive result raises TypeError.  Also accumulates the invoked agent
names. -/
def executeWorkflow (reg : String → Option AgentSpec) :
    Nat → String → PyDict → Except WorkflowErr (Option PyDict) × List String
  | fuel, startName, input =>
    match reg startName with
    | Option.none => (.error (.startNotFound startName), [])
    | some a =>
      let r := executeV2 reg fuel a input
      match r.1 with
      | .failure e => (.error (.stageError e), r.2)
      | .noResult => (.ok Option.none, r.2)
      | .success res =>
        match getNextAgent reg a res with
        | Option.none => (.ok (some res), r.2)
        | some next =>
          match fuel with
          | 0 => (.error .recursionLimit, r.2)
          | fuel1 + 1 =>
            let w := executeWorkflow reg fuel1 next.name (managerPrepNext a.name res input)
            match w.1 with
            | .error e => (.error e, r.2 ++ w.2)
            | .ok Option.none => (.error .typeError, r.2 ++ w.2)
            | .ok (some nres) => (.ok (some (pyUpdate res nres)), r.2 ++ w.2)
termination_by fuel _ _ => fuel

/-- The default domain result substituted by ver0.2 process_chat when the
workflow raises (ver0.2/services/chat_service.py lines 78-88). -/
def defaultDomainResultV2 (context : PyDict) : PyDict :=
  [("tool_name", .str "general_inquiry"),
   ("tool_input", .dict []),
   ("tool_output", .dict [("response", .str "일반 문의에 대한 답변입니다.")]),
   ("context", .dict context),
   ("enhanced_slots", .list [])]

/-- The response-computing slice of ver0.2 process_chat (ver0.2/services/
chat_service.py lines 46-102): build the initial input, run the workflow from
the rewriting stage, use a truthy direct_response as the final payload
(wrapped as a direct_response tool result), otherwise use the workflow result
as the domain result; a workflow exception (or a None workflow result, whose
attribute access raises inside the same try) substitutes the default domain
result; finally render through _generate_final_response, whose own failure
yields a fixed apology.  Returns the final response value and the invoked
agent names. -/
def processChatV2Final (reg : String → Option AgentSpec) (fuel : Nat) (userQuery : String)
    (conversationHistory currentState : PyVal) (context : PyDict) (customerInfo : PyVal) :
    PyVal × List String :=
  let initialInput : PyDict :=
    [("query", .str userQuery),
     ("conversation_context", conversationHistory),
     ("current_state", currentState)]
  let w := executeWorkflow reg fuel "rewriting" initialInput
  let domainResult : PyDict :=
    match w.1 with
    | .error _ => defaultDomainResultV2 context
    | .ok Option.none => defaultDomainResultV2 context
    | .ok (some finalResult) =>
      if truthy (pyGetD finalResult "direct_response" .none) then
        [("tool_name", .str "direct_response"),
         ("tool_output", .dict [("response", pyGetD finalResult "direct_response" .none)]),
         ("context", .dict context),
         ("enhanced_slots", .list [])]
      else finalResult
  let toolOutput := pyGetD domainResult "tool_output" (.dict [])
  let toolName := pyGetD domainResult "tool_name" (.str "")
  let finalResponse :=
    match generateResponse toolName toolOutput customerInfo (.dict context) with
    | .ok r => r
    | .error _ => .str "죄송합니다. 응답 생성 중 오류가 발생했습니다."
  (finalResponse, w.2)

/-- The fields of an agent configuration that routing reads (models the
pydantic AgentConfig of models/agent_config.py restricted to what the claims
need: the stage name and its successor list). -/
structure AgentConfigData where
  name : String
  nextAgent : List String
deriving DecidableEq

/-- Whether a character prefix matches. -/
def listStartsWith : List Char → List Char → Bool
  | _, [] => true
  | [], _ :: _ => false
  | c :: cs, d :: ds => c = d && listStartsWith cs ds

/-- Python s.endswith(suffix). -/
def strEndsWith (s suffix : String) : Bool :=
  listStartsWith s.toList.reverse suffix.toList.reverse

/-- Python s[:-n] for n at most the length of s. -/
def strDropRight (s : String) (n : Nat) : String :=
  String.mk (s.toList.take (s.toList.length - n))

/-- AgentConfigManager._load_configs (models/agent_config.py lines 51-70):
every .json file except tools.json is parsed; a file that fails to parse is
logged and SKIPPED (the loop continues); nothing about successors is ever
examined.  The input models the directory listing with each file already
parsed or failed. -/
def loadConfigs (files : List (String × Except String AgentConfigData)) :
    List (String × AgentConfigData) :=
  files.foldl (fun acc p =>
    if strEndsWith p.1 ".json" && p.1 != "tools.json" then
      match p.2 with
      | .ok cfg => acc ++ [(strDropRight p.1 5, cfg)]
      | .error _ => acc
    else acc) []

/-- Lookup of a loaded configuration by agent name. -/
def lookupConfig (cfgs : List (String × AgentConfigData)) (n : String) :
    Option AgentConfigData :=
  match cfgs with
  | [] => Option.none
  | (k, c) :: rest => if k = n then some c else lookupConfig rest n

/-- The greedy first successor of a stage, as the spec words it. -/
def firstSuccessor (cfgs : List (String × AgentConfigData)) (n : String) : Option String :=
  (lookupConfig cfgs n).bind (fun c => c.nextAgent.head?)

/-- Walk k greedy steps from a stage; the result is the stage reached, or
nothing when the chain ends (no successor or unknown id) before k steps. -/
def walkSteps (cfgs : List (String × AgentConfigData)) : Nat → String → Option String
  | 0, n => some n
  | k + 1, n =>
    match firstSuccessor cfgs n with
    | some m => walkSteps cfgs k m
    | Option.none => Option.none

/-- Spec-side detector: some loaded stage has a first successor that no
loaded stage answers to. -/
def hasUnknownSuccessor (cfgs : List (String × AgentConfigData)) : Bool :=
  cfgs.any (fun p =>
    match p.2.nextAgent.head? with
    | some m => (lookupConfig cfgs m).isNone
    | Option.none => false)

/-- Spec-side detector: walking the first successor greedily from some stage
never terminates (pigeonhole after more steps than there are stages). -/
def hasGreedyCycle (cfgs : List (String × AgentConfigData)) : Bool :=
  cfgs.any (fun p => (walkSteps cfgs (cfgs.length + 1) p.1).isSome)

/-- Lowest index at or after idx where the needle occurs, or -1. -/
def strFindFrom (hay ned : List Char) (idx : Nat) : Int :=
  if listStartsWith hay ned then idx
  else
    match hay with
    | [] => -1
    | _ :: rest => strFindFrom rest ned (idx + 1)

/-- Python s.find(sub). -/
def pyFind (s sub : String) : Int :=
  strFindFrom s.toList sub.toList 0

/-- Python s.find(sub, start). -/
def pyFindFrom (s sub : String) (start : Nat) : Int :=
  strFindFrom (s.toList.drop start) sub.toList start

/-- Python sub in s for strings. -/
def pyInStr (sub s : String) : Bool :=
  decide (0 ≤ pyFind s sub)

/-- Python s[start:stop] for the in-range slices this code produces. -/
def pySlice (s : String) (start stop : Nat) : String :=
  String.mk ((s.toList.drop start).take (stop - start))

/-- Python s.strip(). -/
def pyStrip (s : String) : String :=
  String.mk (((s.toList.dropWhile Char.isWhitespace).reverse.dropWhile
    Char.isWhitespace).reverse)

/-- A Python exception escaping or caught inside state extraction. -/
inductive PyExn where
  | typeError
  | attributeError
  | keyError
deriving DecidableEq

/-- Python key in container: substring test on a string, membership on a
list, key test on a dict; anything else raises TypeError. -/
def pyInContainer (key : String) (v : PyVal) : Except PyExn Bool :=
  match v with
  | .str s => .ok (pyInStr key s)
  | .list xs => .ok (xs.any (fun x => pyEqStr x key))
  | .dict fs => .ok ((dictLookup fs key).isSome)
  | _ => .error .typeError

/-- The marker payload of _extract_state_from_history: the substring from
just after the marker up to the next line break (or the end), stripped. -/
def markerSegment (log marker : String) : String :=
  let start := (pyFind log marker + (marker.length : Int)).toNat
  let stop := pyFindFrom log "\n" start
  let stopN := if stop = -1 then log.length else stop.toNat
  pyStrip (pySlice log start stopN)

/-- The zero-value state dict that _extract_state_from_history starts from
and returns when nothing can be extracted (services/chat_service.py lines
185-205). -/
def zeroState : PyDict :=
  [("selected_account", .none),
   ("pending_action", .none),
   ("missing_slots", .list []),
   ("last_intent", .none),
   ("last_slots", .list [])]

/-- Python d[k] = v on a dict: replace in place, or append a new key. -/
def pySetKey (fs : PyDict) (k : String) (v : PyVal) : PyDict :=
  if (dictLookup fs k).isSome then
    fs.map (fun p => if p.1 = k then (k, v) else p)
  else fs ++ [(k, v)]

/-- The body of _extract_state_from_history (services/chat_service.py lines
183-234; ver0.2 copy identical) applied to the agent_log value of the most
recent turn.  json.loads is passed in as loads, erring exactly when Python
raises json.JSONDecodeError.  The try block catches only JSONDecodeError and
KeyError: a decode failure returns the state accumulated so far; a non-string
log makes the in test raise TypeError (int, bool, None) or makes .find raise
AttributeError (list or dict that contains the marker), and a parsed payload
that is not a dict makes .get raise AttributeError -- none of these are
caught. This definition is the domain marker section; the two definitions
below are the preprocessing marker section and their composition over an
arbitrary agent_log value. -/
def domainSectionExtract (loads : String → Except Unit PyVal) (log : String) :
    Except PyExn (Option PyDict) :=
  if pyInStr "Domain Agent Output:" log then
    match loads (markerSegment log "Domain Agent Output:") with
    | .error _ => .ok Option.none
    | .ok d =>
      match d with
      | .dict dfs =>
        let toolOutput := pyGetD dfs "tool_output" (.dict [])
        match pyInContainer "account_number" toolOutput with
        | .error e => .error e
        | .ok true =>
          match toolOutput with
          | .dict tfs =>
            match dictLookup tfs "account_number" with
            | some acct => .ok (some (pySetKey zeroState "selected_account" acct))
            | Option.none => .ok Option.none
          | _ => .error .typeError
        | .ok false => .ok (some zeroState)
      | _ => .error .attributeError
  else .ok (some zeroState)

/-- The preprocessing marker section of _extract_state_from_history, applied
to the state accumulated by the domain section. -/
def prepSectionExtract (loads : String → Except Unit PyVal) (log : String) (st1 : PyDict) :
    Except PyExn PyDict :=
  if pyInStr "Preprocessing Agent Output:" log then
    match loads (markerSegment log "Preprocessing Agent Output:") with
    | .error _ => .ok st1
    | .ok p =>
      match p with
      | .dict pfs =>
        .ok (pySetKey (pySetKey st1 "last_intent" (pyGetD pfs "intent" .none))
          "last_slots" (pyGetD pfs "slot" (.list [])))
      | _ => .error .attributeError
  else .ok st1

/-- See the doc comment above domainSectionExtract; on a string log the two
marker sections run in order inside one try block, a decode failure in the
domain section returning the zero state immediately (the preprocessing
section is skipped). -/
def extractStateFromLog (loads : String → Except Unit PyVal) (agentLog : PyVal) :
    Except PyExn PyDict :=
  match agentLog with
  | .str log =>
    match domainSectionExtract loads log with
    | .error e => .error e
    | .ok Option.none => .ok zeroState
    | .ok (some st1) => prepSectionExtract loads log st1
  | .list xs =>
    if xs.any (fun x => pyEqStr x "Domain Agent Output:") then .error .attributeError
    else if xs.any (fun x => pyEqStr x "Preprocessing Agent Output:") then .error .attributeError
    else .ok zeroState
  | .dict fs =>
    if (dictLookup fs "Domain Agent Output:").isSome then .error .attributeError
    else if (dictLookup fs "Preprocessing Agent Output:").isSome then .error .attributeError
    else .ok zeroState
  | _ => .error .typeError

/-- _extract_state_from_history: the empty history yields the zero state;
otherwise the most recent entry must be a dict (anything else makes .get
raise AttributeError) and its agent_log (default the empty string) is mined
by extractStateFromLog. -/
def extractStateFromHistory (loads : String → Except Unit PyVal) (history : List PyVal) :
    Except PyExn PyDict :=
  match history.getLast? with
  | Option.none => .ok zeroState
  | some latest =>
    match latest with
    | .dict lfs => extractStateFromLog loads (pyGetD lfs "agent_log" (.str ""))
    | _ => .error .attributeError

/-- The conversation entry built by SessionManager.save_conversation
(services/session_manager.py lines 86-92): alongside the query, response and
trace log it persists context_snapshot, the current_state of the turn
context (empty when no context was passed). -/
def saveConversationEntry (timestamp userQuery agentResponse agentLog : String)
    (context : Option PyDict) : PyDict :=
  [("timestamp", .str timestamp),
   ("user_query", .str userQuery),
   ("agent_response", .str agentResponse),
   ("agent_log", .str agentLog),
   ("context_snapshot",
     match context with
     | some ctx => pyGetD ctx "current_state" (.dict [])
     | Option.none => .dict [])]

/-- A chunk of the response surface of process_chat: a streamed piece of the
rendered answer, the closing complete marker, or the error marker. -/
inductive ChatEvent where
  | response (content : String)
  | complete
  | error (content : String)
deriving DecidableEq

/-- _stream_response (services/chat_service.py lines 629-639): the whole
response in one chunk in test mode, one character per chunk otherwise. -/
def streamEvents (testMode : Bool) (response : String) : List ChatEvent :=
  if testMode then [.response response]
  else response.toList.map (fun c => .response (String.singleton c))

/-- The default rewriting result substituted when the rewriting stage fails
(services/chat_service.py lines 56-60). -/
def defaultRewritingResult (userQuery : String) : PyDict :=
  [("rewritten_text", .str userQuery),
   ("topic", .str "general"),
   ("context_used", .bool false)]

/-- The default preprocessing result (lines 74-79), built from the rewriting
result. -/
def defaultPreprocessingResult (rewritingResult : PyDict) (userQuery : String) : PyDict :=
  [("normalized_text", pyGetD rewritingResult "rewritten_text" (.str userQuery)),
   ("intent", .str "general_inquiry"),
   ("slot", .list []),
   ("context_used", .bool false)]

/-- The default supervisor result (lines 93-100), built from the
preprocessing result and the current context. -/
def defaultSupervisorResult (preprocessingResult : PyDict) (userQuery : String)
    (context : PyDict) : PyDict :=
  [("target_domain", .str "general"),
   ("normalized_text", pyGetD preprocessingResult "normalized_text" (.str userQuery)),
   ("intent", pyGetD preprocessingResult "intent" (.str "general_inquiry")),
   ("slot", pyGetD preprocessingResult "slot" (.list [])),
   ("context", .dict context),
   ("routing_reasoning", .str "Default routing due to error")]

/-- The default domain result (lines 114-120). -/
def defaultDomainResultV1 (context : PyDict) : PyDict :=
  [("tool_name", .str "general_inquiry"),
   ("tool_input", .dict []),
   ("tool_output", .dict [("response", .str "일반 문의에 대한 답변입니다.")]),
   ("context", .dict context),
   ("enhanced_slots", .list [])]

/-- _update_context_with_result (services/chat_service.py lines 311-326):
record the stage result under agent_results (indexing raises KeyError when
the key is absent and TypeError when it is not a dict), increment depth
(missing raises KeyError, non-numeric raises TypeError; Python adds bools as
ints), set current_step, and for preprocessing and domain pull state fields
out of the result (the domain membership test raises TypeError on a
non-container tool_output, and indexing a list or str with a string key
raises TypeError). -/
def updateContextWithResult (context : PyDict) (agentName : String) (result : PyDict) :
    Except PyExn PyDict :=
  match dictLookup context "agent_results" with
  | Option.none => .error .keyError
  | some ars =>
    match ars with
    | .dict arsd =>
      let c1 := pySetKey context "agent_results" (.dict (pySetKey arsd agentName (.dict result)))
      match dictLookup c1 "depth" with
      | Option.none => .error .keyError
      | some d =>
        match d with
        | .int n =>
          let c2 := pySetKey c1 "depth" (.int (n + 1))
          let c3 := pySetKey c2 "current_step" (.str agentName)
          if agentName = "preprocessing" then
            .ok (pySetKey (pySetKey c3 "last_intent" (pyGetD result "intent" .none))
              "last_slots" (pyGetD result "slot" (.list [])))
          else if agentName = "domain" then
            let toolOutput := pyGetD result "tool_output" (.dict [])
            match pyInContainer "account_number" toolOutput with
            | .error e => .error e
            | .ok true =>
              match toolOutput with
              | .dict tfs =>
                match dictLookup tfs "account_number" with
                | some acct => .ok (pySetKey c3 "selected_account" acct)
                | Option.none => .error .keyError
              | _ => .error .typeError
            | .ok false => .ok c3
          else .ok c3
        | .bool b =>
          let c2 := pySetKey c1 "depth" (.int (if b then 2 else 1))
          let c3 := pySetKey c2 "current_step" (.str agentName)
          if agentName = "preprocessing" then
            .ok (pySetKey (pySetKey c3 "last_intent" (pyGetD result "intent" .none))
              "last_slots" (pyGetD result "slot" (.list [])))
          else if agentName = "domain" then
            let toolOutput := pyGetD result "tool_output" (.dict [])
            match pyInContainer "account_number" toolOutput with
            | .error e => .error e
            | .ok true =>
              match toolOutput with
              | .dict tfs =>
                match dictLookup tfs "account_number" with
                | some acct => .ok (pySetKey c3 "selected_account" acct)
                | Option.none => .error .keyError
              | _ => .error .typeError
            | .ok false => .ok c3
          else .ok c3
        | _ => .error .typeError
    | _ => .error .typeError

/-- One guarded stage block of v1 process_chat: on a successful stage call
the result is recorded in the context; any exception inside the block
(including one raised while recording) is caught by the per-stage handler,
which substitutes the documented default and records that instead.  An
exception raised while recording the DEFAULT escapes the handler and aborts
the turn. -/
def stageStep (context : PyDict) (name : String) (outcome : Except String PyDict)
    (defaultResult : PyDict) : Except PyExn (PyDict × PyDict) :=
  match outcome with
  | .ok r =>
    match updateContextWithResult context name r with
    | .ok c2 => .ok (r, c2)
    | .error _ =>
      match updateContextWithResult context name defaultResult with
      | .ok c2 => .ok (defaultResult, c2)
      | .error e2 => .error e2
  | .error _ =>
    match updateContextWithResult context name defaultResult with
    | .ok c2 => .ok (defaultResult, c2)
    | .error e2 => .error e2

/-- The per-turn core of v1 process_chat (services/chat_service.py lines
23-128): context creation (session load, history load and
_create_integrated_context, abstracted as the ctxResult outcome since its
failure is an orchestrator-level exception), then the four stage blocks in
order, each degrading to its default on failure, then final response
generation whose own failure degrades to a fixed apology.  Returns the final
response text, or the exception that escaped the handlers. -/
def processChatV1Core (ctxResult : Except PyExn PyDict)
    (rewServ : String → PyDict → Except String PyDict)
    (prepServ : PyDict → PyDict → Except String PyDict)
    (supServ : PyDict → PyDict → Except String PyDict)
    (domServ : PyDict → PyDict → Except String PyDict)
    (genFinal : PyDict → String → PyDict → Except String String)
    (userQuery : String) : Except PyExn String :=
  match ctxResult with
  | .error e => .error e
  | .ok context0 =>
    match stageStep context0 "rewriting" (rewServ userQuery context0)
        (defaultRewritingResult userQuery) with
    | .error e => .error e
    | .ok (rewritingResult, c1) =>
      match stageStep c1 "preprocessing" (prepServ rewritingResult c1)
          (defaultPreprocessingResult rewritingResult userQuery) with
      | .error e => .error e
      | .ok (preprocessingResult, c2) =>
        match stageStep c2 "supervisor" (supServ preprocessingResult c2)
            (defaultSupervisorResult preprocessingResult userQuery c2) with
        | .error e => .error e
        | .ok (supervisorResult, c3) =>
          match stageStep c3 "domain" (domServ supervisorResult c3)
              (defaultDomainResultV1 c3) with
          | .error e => .error e
          | .ok (domainResult, c4) =>
            match genFinal domainResult userQuery c4 with
            | .ok s => .ok s
            | .error _ => .ok "죄송합니다. 응답 생성 중 오류가 발생했습니다."

/-- The user-visible message of the outer exception handler. -/
def pyExnText : PyExn → String
  | .typeError => "TypeError"
  | .attributeError => "AttributeError"
  | .keyError => "KeyError"

/-- The response surface of one v1 process_chat turn: on success the rendered
response is streamed and the complete marker closes the turn
(save_conversation catches its own failures and returns False, so persistence
cannot abort the turn); an exception escaping the handlers yields the single
error marker of the outer handler. -/
def processChatV1 (ctxResult : Except PyExn PyDict)
    (rewServ : String → PyDict → Except String PyDict)
    (prepServ : PyDict → PyDict → Except String PyDict)
    (supServ : PyDict → PyDict → Except String PyDict)
    (domServ : PyDict → PyDict → Except String PyDict)
    (genFinal : PyDict → String → PyDict → Except String String)
    (testMode : Bool) (userQuery : String) : List ChatEvent :=
  match processChatV1Core ctxResult rewServ prepServ supServ domServ genFinal userQuery with
  | .ok finalResponse => streamEvents testMode finalResponse ++ [.complete]
  | .error e => [.error ("죄송합니다. 처리 중 오류가 발생했습니다: " ++ pyExnText e)]

/-- Safety of the preprocessing marker section of a trace log: absent marker,
undecodable payload, or a payload that decodes to a dict. -/
def safePrepSection (loads : String → Except Unit PyVal) (s : String) : Bool :=
  if pyInStr "Preprocessing Agent Output:" s then
    match loads (markerSegment s "Preprocessing Agent Output:") with
    | .error _ => true
    | .ok (.dict _) => true
    | .ok _ => false
  else true

/-- The exact raising boundary of extractStateFromLog: a log value is safe
iff it is marker-free (any type), or a string whose domain payload fails to
decode (the caught case), or decodes to a dict whose tool_output admits the
membership test and, when the test succeeds, is a dict -- and likewise the
preprocessing payload decodes to a dict or not at all. -/
def safeLogForExtract (loads : String → Except Unit PyVal) (log : PyVal) : Bool :=
  match log with
  | .str s =>
    if pyInStr "Domain Agent Output:" s then
      match loads (markerSegment s "Domain Agent Output:") with
      | .error _ => true
      | .ok (.dict dfs) =>
        (match pyGetD dfs "tool_output" (.dict []) with
         | .dict _ => true
         | .list xs => !(xs.any (fun x => pyEqStr x "account_number"))
         | .str t => !(pyInStr "account_number" t)
         | _ => false) && safePrepSection loads s
      | .ok _ => false
    else safePrepSection loads s
  | .list xs =>
    !(xs.any (fun x => pyEqStr x "Domain Agent Output:"))
      && !(xs.any (fun x => pyEqStr x "Preprocessing Agent Output:"))
  | .dict fs =>
    (dictLookup fs "Domain Agent Output:").isNone
      && (dictLookup fs "Preprocessing Agent Output:").isNone
  | _ => false

/-- Safety of a history for extraction: empty, or a dict last entry whose
agent_log value is safe. -/
def safeHistoryForExtract (loads : String → Except Unit PyVal) (history : List PyVal) : Bool :=
  match history.getLast? with
  | Option.none => true
  | some (.dict lfs) => safeLogForExtract loads (pyGetD lfs "agent_log" (.str ""))
  | some _ => false

/-- A downstream agent whose body always raises, for concrete runs. -/
def witnessDownAgent : AgentSpec :=
  { name := "down", nextAgent := [], maxRetries := 1,
    run := fun _ _ => .error "boom", prep := fun cur _ => cur }

/-- An upstream agent routed to the failing downstream agent. -/
def witnessUpAgent : AgentSpec :=
  { name := "up", nextAgent := ["down"], maxRetries := 1,
    run := fun _ _ => .ok [("x", .int 1)], prep := fun cur _ => cur }

/-- A registry holding only the failing downstream agent. -/
def witnessRegistry : String → Option AgentSpec :=
  fun s => if s = "down" then some witnessDownAgent else Option.none

/-- A rewriting agent that classifies the turn as out-of-domain: its output
carries the skip flag and a pre-composed direct answer. -/
def witnessRewritingAgent : AgentSpec :=
  { name := "rewriting_agent", nextAgent := ["preprocessing_agent"], maxRetries := 3,
    run := fun _ _ => .ok
      [("rewritten_text", .str "오늘 날씨 어때?"),
       ("topic", .str "general"),
       ("context_used", .bool false),
       ("is_general", .bool true),
       ("direct_response", .str "죄송합니다. 은행 업무와 관련되지 않은 질문입니다."),
       ("should_skip_next_agent", .bool true)],
    prep := fun cur _ => cur }

/-- A registry with the out-of-domain rewriting agent as entry stage. -/
def witnessDirectRegistry : String → Option AgentSpec :=
  fun s => if s = "rewriting" then some witnessRewritingAgent else Option.none

/-- A json.loads stand-in that never decodes, for concrete runs that never
reach a marker payload. -/
def witnessLoadsFail : String → Except Unit PyVal :=
  fun _ => .error ()

/-- An agent configured with a non-positive retry bound, for concrete runs. -/
def witnessZeroRetryAgent : AgentSpec :=
  { name := "zero", nextAgent := [], maxRetries := -2,
    run := fun _ _ => .ok [], prep := fun cur _ => cur }

/-- A directory listing with an unknown first successor and a self-cycle. -/
def badConfigFiles : List (String × Except String AgentConfigData) :=
  [("rewriting_agent.json", .ok { name := "rewriting_agent", nextAgent := ["ghost_agent"] }),
   ("loop_agent.json", .ok { name := "loop_agent", nextAgent := ["loop_agent"] })]

/-- A saved turn whose snapshot is populated but whose trace log is empty. -/
def snapshotEntryFixture : PyDict :=
  saveConversationEntry "2025-01-01T00:00:00" "그 계좌 잔액은?" "잔액 답변" ""
    (some [("current_state",
      .dict [("selected_account", .str "110-1234"),
             ("pending_action", .none),
             ("missing_slots", .list []),
             ("last_intent", .str "check_balance"),
             ("last_slots", .list [])])])

/-- _validate_field accepts a value exactly when it amended-conforms. -/
theorem validateField_none_iff : ∀ (value schema : PyVal) (path : String),
    validateField value schema path = Option.none ↔ amendedFieldOK value schema = true := by
  apply validateField.induct
    (fun value schema path =>
      validateField value schema path = Option.none ↔ amendedFieldOK value schema = true)
    (fun vfs sfs path =>
      validateDictItems vfs sfs path = Option.none ↔ amendedItemsOK vfs sfs = true)
    (fun xs s0 path i =>
      validateListElems xs s0 path i = Option.none ↔ amendedElemsOK xs s0 = true)
  · intro path xs
    simp [validateField, amendedFieldOK]
  · intro path xs s0 tail ih
    simpa [validateField, amendedFieldOK] using ih
  · intro value path es hne
    cases value <;> simp_all [validateField, amendedFieldOK]
  · intro path sfs vfs ih
    simpa [validateField, amendedFieldOK] using ih
  · intro value path sfs hne
    cases value <;> simp_all [validateField, amendedFieldOK]
  · intro path s
    simp [validateField, amendedFieldOK]
  · intro value path hne
    cases value <;> simp_all [validateField, amendedFieldOK]
  · intro path n h
    simp [validateField, amendedFieldOK]
  · intro path b h
    simp [validateField, amendedFieldOK]
  · intro value path hn hb h
    cases value <;> simp_all [validateField, amendedFieldOK]
  · intro path vfs h1 h2
    simp [validateField, amendedFieldOK]
  · intro value path hne h1 h2
    cases value <;> simp_all [validateField, amendedFieldOK]
  · intro value path t h1 h2 h3
    simp [validateField.eq_def, amendedFieldOK.eq_def, h1, h2, h3]
  · intro value schema path h1 h2 h3
    cases schema <;> simp_all [validateField, amendedFieldOK]
  · intro sfs path
    simp [validateDictItems, amendedItemsOK]
  · intro sfs path k v rest sk hlk e herr ih
    simp [herr] at ih
    simp [validateDictItems, amendedItemsOK, hlk, herr, ih]
  · intro sfs path k v rest sk hlk hnone ih1 ih2
    have hok : amendedFieldOK v sk = true := ih1.mp hnone
    simp [validateDictItems, amendedItemsOK, hlk, hnone, hok, ih2]
  · intro sfs path k v rest hlk ih
    simpa [validateDictItems, amendedItemsOK, hlk] using ih
  · intro s0 path i
    simp [validateListElems, amendedElemsOK]
  · intro s0 path i x tail e herr ih
    simp [herr] at ih
    simp [validateListElems, amendedElemsOK, herr, ih]
  · intro s0 path i x tail hnone ih1 ih2
    have hok : amendedFieldOK x s0 = true := ih1.mp hnone
    simp [validateListElems, amendedElemsOK, hnone, hok, ih2]

/-- _validate_schema accepts exactly when every top-level declared field is
present and amended-conforming. -/
theorem validateSchema_none_iff (data schemaItems : PyDict) (dataType : String) :
    validateSchema data schemaItems dataType = Option.none ↔
      amendedSchemaOK data schemaItems = true := by
  induction schemaItems with
  | nil => simp [validateSchema, amendedSchemaOK]
  | cons p rest ih =>
    obtain ⟨fn, fs⟩ := p
    simp only [validateSchema, amendedSchemaOK, List.all_cons]
    cases hlk : dictLookup data fn with
    | none => simp [hlk]
    | some fv =>
      simp only [hlk]
      cases hvf : validateField fv fs (dataType ++ "." ++ fn) with
      | some e =>
        have hbad := validateField_none_iff fv fs (dataType ++ "." ++ fn)
        simp [hvf] at hbad
        simp [hvf, hbad]
      | none =>
        have hok := (validateField_none_iff fv fs (dataType ++ "." ++ fn)).mp hvf
        simp [hvf, hok, amendedSchemaOK] at ih ⊢
        exact ih

/-- C1 counterexample: the nested schema declares field b inside object a,
the value omits b, yet validation reports no error while the claimed
recursive-presence requirement fails.  The claimed iff is therefore false. -/
theorem validateSchema_nested_missing_key_counterexample :
    validateSchema [("a", PyVal.dict [])]
      [("a", PyVal.dict [("b", PyVal.str "string")])] "input" = Option.none
    ∧ specSchemaOK [("a", PyVal.dict [])]
      [("a", PyVal.dict [("b", PyVal.str "string")])] = false := by
  constructor
  · simp [validateSchema, validateField, validateDictItems, dictLookup]
  · simp [specSchemaOK, specFieldOK, specDictOK, dictLookup]

/-- C1 (corrected): schema validation reports no error iff every TOP-LEVEL
declared field is present with a conforming value, where conformance checks
list schemas elementwise against the first element schema, checks object
schemas only on the keys the value actually has (a declared key missing from
a nested object is accepted), and checks the primitive tags structurally. -/
theorem validateSchema_accepts_iff_amended (data schemaItems : PyDict) (dataType : String) :
    validateSchema data schemaItems dataType = Option.none ↔
      amendedSchemaOK data schemaItems = true :=
  validateSchema_none_iff data schemaItems dataType

/-- Splitting the first backoff delay off a delay sum. -/
theorem delaySum_shift (base maxD : Int) (a j : Nat) :
    ∑ i ∈ Finset.range (j + 1), min (base * 2 ^ (a + i)) maxD
      = min (base * 2 ^ a) maxD + ∑ i ∈ Finset.range j, min (base * 2 ^ (a + 1 + i)) maxD := by
  induction j with
  | zero => simp
  | succ j ih =>
    rw [Finset.sum_range_succ, ih, Finset.sum_range_succ, add_assoc]
    have h1 : a + (j + 1) = a + 1 + j := by omega
    rw [h1]

/-- Success after j failures starting at any attempt offset. -/
theorem executeRetryLoop_success {E A : Type} (f : Nat → Except E A) (e : Nat → E)
    (base maxD : Int) :
    ∀ (j a r : Nat) (v : A), (∀ n, n < j → f (a + n) = .error (e (a + n))) →
      f (a + j) = .ok v → j < r →
      executeRetryLoop f base maxD a r =
        (.success v, ∑ i ∈ Finset.range j, min (base * 2 ^ (a + i)) maxD, j + 1) := by
  intro j
  induction j with
  | zero =>
    intro a r v hfail hok hr
    obtain ⟨r1, rfl⟩ : ∃ r1, r = r1 + 1 := ⟨r - 1, by omega⟩
    simp only [Nat.add_zero] at hok
    simp [executeRetryLoop, hok]
  | succ j ih =>
    intro a r v hfail hok hr
    obtain ⟨r1, rfl⟩ : ∃ r1, r = r1 + 1 := ⟨r - 1, by omega⟩
    have h0 : f a = .error (e a) := by simpa using hfail 0 (by omega)
    have hr1 : r1 ≠ 0 := by omega
    have hrec := ih (a + 1) r1 v
      (fun n hn => by
        have := hfail (n + 1) (by omega)
        simpa [Nat.add_assoc, Nat.add_comm 1 n] using this)
      (by simpa [Nat.add_assoc, Nat.add_comm 1 j] using hok)
      (by omega)
    simp only [executeRetryLoop, h0, if_neg hr1]
    rw [hrec]
    simp only [delaySum_shift base maxD a j]

/-- Exhaustion: all r attempts fail, the error of the last attempt is raised,
and delays are slept after every failed attempt except the last. -/
theorem executeRetryLoop_exhaust {E A : Type} (f : Nat → Except E A) (e : Nat → E)
    (base maxD : Int) :
    ∀ (r a : Nat), (∀ n, n < r → f (a + n) = .error (e (a + n))) → 0 < r →
      executeRetryLoop f base maxD a r =
        (.failure (e (a + r - 1)), ∑ i ∈ Finset.range (r - 1), min (base * 2 ^ (a + i)) maxD, r) := by
  intro r
  induction r with
  | zero => omega
  | succ r1 ih =>
    intro a hfail _
    have h0 : f a = .error (e a) := by simpa using hfail 0 (by omega)
    by_cases hr1 : r1 = 0
    · subst hr1
      simp [executeRetryLoop, h0]
    · have hrec := ih (a + 1)
        (fun n hn => by
          have := hfail (n + 1) (by omega)
          simpa [Nat.add_assoc, Nat.add_comm 1 n] using this)
        (by omega)
      simp only [executeRetryLoop, h0, if_neg hr1]
      rw [hrec]
      obtain ⟨r2, rfl⟩ : ∃ r2, r1 = r2 + 1 := ⟨r1 - 1, by omega⟩
      have hidx : a + 1 + (r2 + 1) - 1 = a + (r2 + 1 + 1) - 1 := by omega
      simp only [hidx, Nat.add_sub_cancel]
      rw [delaySum_shift base maxD a r2]

/-- C2: a stage function that fails exactly k times and then succeeds, with
k strictly below max_retries, makes execute return the success result after
k + 1 attempts, having slept the sum over n = 2..k+1 of
min(retry_delay * 2 ^ (n - 2), retry_delay_max) (indexed here as attempts
i = 0..k-1); and if all max_retries attempts fail, the error of the last
attempt is raised to the caller. -/
theorem executeRetry_spec {E A : Type} (f : Nat → Except E A) (e : Nat → E)
    (base maxD m : Int) :
    (∀ (k : Nat) (v : A), (∀ n, n < k → f n = .error (e n)) → f k = .ok v → (k : Int) < m →
      executeRetry f base maxD m =
        (.success v, ∑ i ∈ Finset.range k, min (base * 2 ^ i) maxD, k + 1))
    ∧ ((∀ n, n < m.toNat → f n = .error (e n)) → 0 < m →
      executeRetry f base maxD m =
        (.failure (e (m.toNat - 1)),
          ∑ i ∈ Finset.range (m.toNat - 1), min (base * 2 ^ i) maxD, m.toNat)) := by
  constructor
  · intro k v hfail hok hkm
    have hk : k < m.toNat := by omega
    have h := executeRetryLoop_success f e base maxD k 0 m.toNat v
      (fun n hn => by simpa using hfail n hn) (by simpa using hok) hk
    simpa [executeRetry] using h
  · intro hfail hm
    have h0 : 0 < m.toNat := by omega
    have h := executeRetryLoop_exhaust f e base maxD m.toNat 0
      (fun n hn => by simpa using hfail n hn) h0
    simpa [executeRetry] using h

/-- Witness for C2: a function failing on attempts 0 and 1 and succeeding on
attempt 2 under a 3-attempt policy with base delay 1 and cap 10 yields the
success value with total delay 1 + 2 = 3 after 3 attempts; a function that
always fails yields the error of attempt 2. -/
theorem executeRetry_spec_witness :
    executeRetry (fun n => if n < 2 then Except.error n else Except.ok (42 : Nat)) 1 10 3
      = (.success 42, 3, 3)
    ∧ executeRetry (fun n => (Except.error n : Except Nat Nat)) 1 10 3
      = (.failure 2, 3, 3) := by
  constructor
  · have h := (executeRetry_spec
        (fun n => if n < 2 then Except.error n else Except.ok (42 : Nat))
        (fun n => n) 1 10 3).1 2 42
        (fun n hn => if_pos hn) rfl (by decide)
    rw [h]
    norm_num [Finset.sum_range_succ]
  · have h := (executeRetry_spec
        (fun n => (Except.error n : Except Nat Nat))
        (fun n => n) 1 10 3).2
        (fun n _ => rfl) (by decide)
    have h3 : (3 : Int).toNat = 3 := rfl
    rw [h, h3]
    norm_num [Finset.sum_range_succ]

/-- Lookup distributes over list append of dicts. -/
theorem dictLookup_append (l1 l2 : PyDict) (k : String) :
    dictLookup (l1 ++ l2) k =
      match dictLookup l1 k with
      | some v => some v
      | Option.none => dictLookup l2 k := by
  induction l1 with
  | nil => simp [dictLookup]
  | cons p rest ih =>
    obtain ⟨k1, v1⟩ := p
    by_cases hk : k1 = k <;> simp [dictLookup, hk, ih]

/-- Lookup in the overridden copy of cur. -/
theorem dictLookup_map_override (cur next : PyDict) (k : String) :
    dictLookup (cur.map (fun p => (p.1, (dictLookup next p.1).getD p.2))) k =
      (dictLookup cur k).map (fun v => (dictLookup next k).getD v) := by
  induction cur with
  | nil => simp [dictLookup]
  | cons p rest ih =>
    obtain ⟨k1, v1⟩ := p
    by_cases hk : k1 = k <;> simp [dictLookup, hk, ih]

/-- Lookup in the new-keys part of an update. -/
theorem dictLookup_filter_new (cur next : PyDict) (k : String) :
    dictLookup (next.filter (fun p => (dictLookup cur p.1).isNone)) k =
      if (dictLookup cur k).isNone then dictLookup next k else Option.none := by
  induction next with
  | nil => simp [dictLookup]
  | cons p rest ih =>
    obtain ⟨k2, v2⟩ := p
    by_cases hp : (dictLookup cur k2).isNone
    · by_cases hk : k2 = k
      · subst hk
        simp [List.filter, hp, dictLookup]
      · simp [List.filter, hp, dictLookup, hk, ih]
    · by_cases hk : k2 = k
      · subst hk
        simp only [List.filter, Bool.not_eq_true] at hp ⊢
        simp [hp, ih, dictLookup]
      · simp [List.filter, hp, dictLookup, hk, ih]

/-- C10: merging an upstream result with a downstream result in ver0.2
execute_workflow (merged = current.copy(); merged.update(next)) yields the
upstream map overridden by the downstream one: every key present downstream
takes the downstream value, keys present only upstream keep their value. -/
theorem mergeResults_downstream_overrides (cur next : PyDict) (k : String) :
    dictLookup (pyUpdate cur next) k =
      match dictLookup next k with
      | some v => some v
      | Option.none => dictLookup cur k := by
  rw [pyUpdate, dictLookup_append, dictLookup_map_override, dictLookup_filter_new]
  cases hn : dictLookup next k <;> cases hc : dictLookup cur k <;> simp [hn, hc]

/-- C3: when the first stage of a ver0.2 turn succeeds with an output whose
should_skip_next_agent flag is truthy and whose direct_response is a
non-empty string, the final payload of the turn is exactly that
direct_response string and no downstream stage body is ever invoked (the
invoked list is the rewriting stage alone). -/
theorem processChatV2_direct_response_short_circuit
    (reg : String → Option AgentSpec) (A : AgentSpec) (fuel : Nat) (userQuery : String)
    (hist st : PyVal) (context cfs csfs : PyDict) (out : PyDict) (dr : String)
    (hreg : reg "rewriting" = some A)
    (hretry : 0 < A.maxRetries)
    (hrun : A.run 0 [("query", .str userQuery), ("conversation_context", hist),
      ("current_state", st)] = .ok out)
    (hskip : truthy (pyGetD out "should_skip_next_agent" (.bool false)) = true)
    (hdr : dictLookup out "direct_response" = some (.str dr))
    (hne : dr ≠ "")
    (hcs : pyGetD context "current_state" (.dict []) = .dict csfs) :
    processChatV2Final reg fuel userQuery hist st context (.dict cfs) = (.str dr, [A.name]) := by
  obtain ⟨mr, hmr⟩ : ∃ mr, A.maxRetries.toNat = mr + 1 :=
    ⟨A.maxRetries.toNat - 1, by omega⟩
  have hloop : executeV2 reg fuel A
      [("query", .str userQuery), ("conversation_context", hist), ("current_state", st)]
      = (.success out, [A.name]) := by
    rw [executeV2, hmr]
    simp only [executeV2Loop, hrun]
    cases hie : A.nextAgent.isEmpty <;> simp [hie, hskip]
  have hwf : executeWorkflow reg fuel "rewriting"
      [("query", .str userQuery), ("conversation_context", hist), ("current_state", st)]
      = (.ok (some out), [A.name]) := by
    rw [executeWorkflow]
    simp only [hreg, hloop, getNextAgent, hskip, if_true]
  have hdrv : pyGetD out "direct_response" PyVal.none = .str dr := by
    simp [pyGetD, hdr]
  have htr : truthy (pyGetD out "direct_response" PyVal.none) = true := by
    simp [hdrv, truthy, hne]
  rw [processChatV2Final]
  simp only [hwf, htr, hdrv]
  have hgen : generateResponse (.str "direct_response") (.dict [("response", .str dr)])
      (.dict cfs) (.dict context) = .ok (.str dr) := by
    rw [generateResponse]
    have hcs2 : (dictLookup context "current_state").getD (PyVal.dict []) = PyVal.dict csfs := hcs
    cases h1 : truthy (.dict cfs) <;> cases h2 : truthy (.dict context) <;>
      simp [h1, h2, pyGet, hcs2, generateDirectResponse, pyGetD, dictLookup, truthy, hne,
        Bind.bind, Except.bind, pure, Except.pure]
  simp [pyGetD, dictLookup, truthy, hne, hgen]

/-- C9: in the ver0.2 agent-to-agent chain, when the current agent succeeds
but the recursive successor call raises, the exception is swallowed and the
current agent alone contributes the chain result. -/
theorem executeV2_downstream_failure_swallowed
    (reg : String → Option AgentSpec) (fuel : Nat) (a next : AgentSpec) (input out : PyDict)
    (e : String) (ns : List String) (n : String) (rest : List String)
    (hretry : 0 < a.maxRetries)
    (hrun : a.run 0 input = .ok out)
    (hnext : a.nextAgent = n :: rest)
    (hskip : truthy (pyGetD out "should_skip_next_agent" (.bool false)) = false)
    (hreg : reg n = some next)
    (hdown : executeV2 reg fuel next (a.prep out input) = (.failure e, ns)) :
    executeV2 reg (fuel + 1) a input = (.success out, a.name :: ns) := by
  obtain ⟨mr, hmr⟩ : ∃ mr, a.maxRetries.toNat = mr + 1 :=
    ⟨a.maxRetries.toNat - 1, by omega⟩
  rw [executeV2, hmr]
  simp [executeV2Loop, hrun, hnext, hskip, getNextAgent, hreg, hdown]

/-- Witness for C9: a concrete two-agent chain where the downstream agent
always raises; the upstream result alone is returned and both bodies ran. -/
theorem executeV2_downstream_failure_swallowed_witness :
    executeV2 witnessRegistry 0 witnessDownAgent [("x", .int 1)] = (.failure "boom", ["down"])
    ∧ executeV2 witnessRegistry 1 witnessUpAgent [] = (.success [("x", .int 1)], ["up", "down"]) := by
  have hdown : executeV2 witnessRegistry 0 witnessDownAgent
      (witnessUpAgent.prep [("x", .int 1)] []) = (.failure "boom", ["down"]) := by
    rw [executeV2]
    simp [witnessDownAgent, witnessUpAgent, executeV2Loop]
  refine ⟨by simpa [witnessUpAgent] using hdown, ?_⟩
  have h := executeV2_downstream_failure_swallowed witnessRegistry 0 witnessUpAgent
    witnessDownAgent [] [("x", .int 1)] "boom" ["down"] "down" []
    (by norm_num [witnessUpAgent]) rfl rfl (by decide) rfl hdown
  simpa [witnessUpAgent] using h

/-- Witness for C3: a concrete out-of-domain turn.  The rewriting agent sets
the skip flag and a direct answer; the final payload is that answer verbatim
and only the rewriting stage ran. -/
theorem processChatV2_direct_response_short_circuit_witness :
    witnessDirectRegistry "rewriting" = some witnessRewritingAgent
    ∧ processChatV2Final witnessDirectRegistry 5 "오늘 날씨 어때?" (.list []) (.dict []) [] (.dict [])
      = (.str "죄송합니다. 은행 업무와 관련되지 않은 질문입니다.", ["rewriting_agent"]) := by
  refine ⟨rfl, ?_⟩
  have h := processChatV2_direct_response_short_circuit witnessDirectRegistry
    witnessRewritingAgent 5 "오늘 날씨 어때?" (.list []) (.dict []) [] [] []
    [("rewritten_text", .str "오늘 날씨 어때?"),
     ("topic", .str "general"),
     ("context_used", .bool false),
     ("is_general", .bool true),
     ("direct_response", .str "죄송합니다. 은행 업무와 관련되지 않은 질문입니다."),
     ("should_skip_next_agent", .bool true)]
    "죄송합니다. 은행 업무와 관련되지 않은 질문입니다."
    rfl (by decide) rfl (by decide) rfl (by decide) rfl
  simpa [witnessRewritingAgent] using h

/-- C8: an agent configured with max_retries at most zero makes execute run
zero attempts and fall off the loop, returning Python None: no stage body is
invoked, nothing is raised, and the caller receives neither output nor a
failure signal.  This holds for the v1 retry loop and for the ver0.2 execute
with its chain logic (which returns an empty invoked list). -/
theorem execute_nonpositive_retries_returns_none :
    (∀ {E A : Type} (f : Nat → Except E A) (base maxD m : Int), m ≤ 0 →
      executeRetry f base maxD m = (.noResult, 0, 0))
    ∧ (∀ (reg : String → Option AgentSpec) (fuel : Nat) (a : AgentSpec) (input : PyDict),
      a.maxRetries ≤ 0 → executeV2 reg fuel a input = (.noResult, [])) := by
  constructor
  · intro E A f base maxD m hm
    have h0 : m.toNat = 0 := Int.toNat_eq_zero.mpr hm
    simp [executeRetry, h0, executeRetryLoop]
  · intro reg fuel a input hm
    have h0 : a.maxRetries.toNat = 0 := Int.toNat_eq_zero.mpr hm
    rw [executeV2, h0]
    simp [executeV2Loop]

/-- Witness for C8 at max_retries 0 (v1 loop) and -2 (ver0.2 agent). -/
theorem execute_nonpositive_retries_returns_none_witness :
    ((0 : Int) ≤ 0
      ∧ executeRetry (fun n => (Except.error n : Except Nat Nat)) 1 10 0 = (.noResult, 0, 0))
    ∧ (witnessZeroRetryAgent.maxRetries ≤ 0
      ∧ executeV2 witnessRegistry 3 witnessZeroRetryAgent [] = (.noResult, [])) :=
  ⟨⟨by decide, execute_nonpositive_retries_returns_none.1
      (fun n => (Except.error n : Except Nat Nat)) 1 10 0 (by decide)⟩,
   ⟨by decide, execute_nonpositive_retries_returns_none.2
      witnessRegistry 3 witnessZeroRetryAgent [] (by decide)⟩⟩

/-- C4 counterexample: a configuration whose first stage routes to an
unknown id and whose second stage routes to itself loads WITHOUT any error:
_load_configs registers both stages and never examines successors, so the
process starts although the spec-side detectors flag an unknown successor
and a greedy cycle. -/
theorem loadConfigs_accepts_unknown_and_cyclic_successors :
    loadConfigs badConfigFiles =
      [("rewriting_agent", { name := "rewriting_agent", nextAgent := ["ghost_agent"] }),
       ("loop_agent", { name := "loop_agent", nextAgent := ["loop_agent"] })]
    ∧ hasUnknownSuccessor (loadConfigs badConfigFiles) = true
    ∧ hasGreedyCycle (loadConfigs badConfigFiles) = true := by
  refine ⟨by decide, by decide, by decide⟩

/-- C4 (corrected): configuration loading performs no successor validation at
all -- any parse-ok stage files load whatever their successor lists say, a
file that fails to parse is skipped rather than failing the load, and an
unknown successor id surfaces only at first use, where get_next_agent
returns nothing and the chain silently ends. -/
theorem loadConfigs_no_successor_validation :
    (∀ (nm1 nm2 : String) (s1 s2 : List String),
      loadConfigs [("a.json", .ok { name := nm1, nextAgent := s1 }),
        ("b.json", .ok { name := nm2, nextAgent := s2 })] =
        [("a", { name := nm1, nextAgent := s1 }), ("b", { name := nm2, nextAgent := s2 })])
    ∧ (∀ (e : String), loadConfigs [("a.json", .error e)] = [])
    ∧ (∀ (reg : String → Option AgentSpec) (a : AgentSpec) (result : PyDict) (n : String)
        (rest : List String), a.nextAgent = n :: rest → reg n = Option.none →
        getNextAgent reg a result = Option.none) := by
  refine ⟨fun nm1 nm2 s1 s2 => ?_, fun e => ?_, fun reg a result n rest hn hr => ?_⟩
  · rfl
  · rfl
  · cases h : truthy (pyGetD result "should_skip_next_agent" (.bool false)) <;>
      simp [getNextAgent, h, hn, hr]

/-- Witness for C4: concrete loads and a concrete unknown-successor routing
step that yields nothing instead of failing. -/
theorem loadConfigs_no_successor_validation_witness :
    witnessUpAgent.nextAgent = "down" :: []
    ∧ loadConfigs [("a.json", .ok { name := "x", nextAgent := ["ghost"] }),
        ("b.json", .ok { name := "y", nextAgent := ["y"] })] =
        [("a", { name := "x", nextAgent := ["ghost"] }), ("b", { name := "y", nextAgent := ["y"] })]
    ∧ getNextAgent (fun _ => Option.none) witnessUpAgent [] = Option.none :=
  ⟨rfl,
   loadConfigs_no_successor_validation.1 "x" "y" ["ghost"] ["y"],
   loadConfigs_no_successor_validation.2.2 (fun _ => Option.none) witnessUpAgent [] "down" []
     rfl rfl⟩

/-- In-place overwrite of one key leaves lookups of other keys unchanged. -/
theorem dictLookup_map_setKey_ne (fs : PyDict) (k k2 : String) (v : PyVal) (h : k2 ≠ k) :
    dictLookup (fs.map (fun p => if p.1 = k then (k, v) else p)) k2 = dictLookup fs k2 := by
  induction fs with
  | nil => rfl
  | cons p rest ih =>
    obtain ⟨k1, v1⟩ := p
    rw [List.map_cons]
    by_cases h1 : k1 = k
    · subst h1
      rw [show (if (k1, v1).1 = k1 then (k1, v) else (k1, v1)) = (k1, v) from by simp]
      simp only [dictLookup]
      rw [if_neg (fun hh => h hh.symm), if_neg (fun hh => h hh.symm)]
      exact ih
    · rw [show (if (k1, v1).1 = k then (k, v) else (k1, v1)) = (k1, v1) from by simp [h1]]
      simp only [dictLookup]
      by_cases h2 : k1 = k2
      · rw [if_pos h2, if_pos h2]
      · rw [if_neg h2, if_neg h2]
        exact ih

/-- In-place overwrite of a present key makes its lookup the new value. -/
theorem dictLookup_map_setKey_self (fs : PyDict) (k : String) (v : PyVal)
    (hin : (dictLookup fs k).isSome) :
    dictLookup (fs.map (fun p => if p.1 = k then (k, v) else p)) k = some v := by
  induction fs with
  | nil => simp [dictLookup] at hin
  | cons p rest ih =>
    obtain ⟨k1, v1⟩ := p
    rw [List.map_cons]
    by_cases h1 : k1 = k
    · subst h1
      rw [show (if (k1, v1).1 = k1 then (k1, v) else (k1, v1)) = (k1, v) from by simp]
      simp [dictLookup]
    · rw [show (if (k1, v1).1 = k then (k, v) else (k1, v1)) = (k1, v1) from by simp [h1]]
      simp only [dictLookup] at hin ⊢
      rw [if_neg h1] at hin
      rw [if_neg h1]
      exact ih hin

/-- Setting one key leaves lookups of other keys unchanged. -/
theorem dictLookup_pySetKey_ne (fs : PyDict) (k k2 : String) (v : PyVal) (h : k2 ≠ k) :
    dictLookup (pySetKey fs k v) k2 = dictLookup fs k2 := by
  rw [pySetKey]
  by_cases hin : (dictLookup fs k).isSome
  · rw [if_pos hin, dictLookup_map_setKey_ne fs k k2 v h]
  · rw [if_neg hin, dictLookup_append]
    cases hl : dictLookup fs k2 <;> simp [dictLookup, Ne.symm h]

/-- Setting a key makes its lookup return the new value. -/
theorem dictLookup_pySetKey_self (fs : PyDict) (k : String) (v : PyVal) :
    dictLookup (pySetKey fs k v) k = some v := by
  rw [pySetKey]
  by_cases hin : (dictLookup fs k).isSome
  · rw [if_pos hin, dictLookup_map_setKey_self fs k v hin]
  · rw [if_neg hin, dictLookup_append]
    have hl : dictLookup fs k = Option.none := by
      cases hx : dictLookup fs k
      · rfl
      · rw [hx] at hin
        simp at hin
    simp [hl, dictLookup]

/-- C5 counterexample: a turn persisted by save_conversation with a populated
context_snapshot (a selected account and a last intent) but an uninformative
trace log reconstructs to the all-zero state: the snapshot is not consulted. -/
theorem extract_ignores_snapshot_counterexample :
    dictLookup snapshotEntryFixture "context_snapshot"
      = some (.dict [("selected_account", .str "110-1234"),
                     ("pending_action", .none),
                     ("missing_slots", .list []),
                     ("last_intent", .str "check_balance"),
                     ("last_slots", .list [])])
    ∧ extractStateFromHistory witnessLoadsFail [.dict snapshotEntryFixture] = .ok zeroState
    ∧ dictLookup zeroState "selected_account" = some PyVal.none
    ∧ dictLookup zeroState "last_intent" = some PyVal.none :=
  ⟨rfl, rfl, rfl, rfl⟩

/-- C5 (corrected): reconstruction reads only the trace log.  Extraction of a
history ending in a turn saved by save_conversation equals extraction from
that turn's agent_log string alone, and overwriting the persisted
context_snapshot with ANY value never changes the reconstructed state. -/
theorem extract_reads_only_agent_log :
    (∀ (loads : String → Except Unit PyVal) (history : List PyVal)
       (ts q resp log : String) (ctx : Option PyDict),
      extractStateFromHistory loads
          (history ++ [.dict (saveConversationEntry ts q resp log ctx)])
        = extractStateFromLog loads (.str log))
    ∧ (∀ (loads : String → Except Unit PyVal) (history : List PyVal)
        (lfs : PyDict) (snap : PyVal),
      extractStateFromHistory loads (history ++ [.dict (pySetKey lfs "context_snapshot" snap)])
        = extractStateFromHistory loads (history ++ [.dict lfs])) := by
  constructor
  · intro loads history ts q resp log ctx
    rw [extractStateFromHistory, List.getLast?_concat]
    rfl
  · intro loads history lfs snap
    rw [extractStateFromHistory, List.getLast?_concat,
      extractStateFromHistory, List.getLast?_concat]
    have hkey : pyGetD (pySetKey lfs "context_snapshot" snap) "agent_log" (.str "")
        = pyGetD lfs "agent_log" (.str "") := by
      rw [pyGetD, pyGetD, dictLookup_pySetKey_ne]
      decide
    show extractStateFromLog loads (pyGetD (pySetKey lfs "context_snapshot" snap) "agent_log" (.str ""))
      = extractStateFromLog loads (pyGetD lfs "agent_log" (.str ""))
    rw [hkey]

/-- C6 counterexample: a history whose latest turn carries the int 7 as its
trace log makes extraction raise TypeError (the in operator on an int), which
the except clause for JSONDecodeError and KeyError does not catch -- refuting
the claim that extraction never raises on malformed histories. -/
theorem extract_raises_on_non_string_log :
    extractStateFromHistory witnessLoadsFail [.dict [("agent_log", .int 7)]]
      = .error .typeError := rfl

/-- A safe preprocessing section always produces a state. -/
theorem prepSection_ok_of_safe (loads : String → Except Unit PyVal) (s : String)
    (st1 : PyDict) (h : safePrepSection loads s = true) :
    ∃ st, prepSectionExtract loads s st1 = .ok st := by
  rw [safePrepSection] at h
  rw [prepSectionExtract]
  by_cases hp : pyInStr "Preprocessing Agent Output:" s
  · rw [if_pos hp] at h ⊢
    cases hlp : loads (markerSegment s "Preprocessing Agent Output:") with
    | error u => exact ⟨st1, rfl⟩
    | ok p =>
      rw [hlp] at h
      cases p <;> first
      | exact ⟨_, rfl⟩
      | simp_all
  · rw [if_neg hp]
    exact ⟨st1, rfl⟩

/-- A safe log value never makes extraction raise. -/
theorem extractLog_ok_of_safe (loads : String → Except Unit PyVal) (log : PyVal)
    (hsafe : safeLogForExtract loads log = true) :
    ∃ st, extractStateFromLog loads log = .ok st := by
  cases log with
  | str s =>
    rw [safeLogForExtract] at hsafe
    by_cases hd : pyInStr "Domain Agent Output:" s
    · rw [if_pos hd] at hsafe
      cases hld : loads (markerSegment s "Domain Agent Output:") with
      | error u =>
        refine ⟨zeroState, ?_⟩
        rw [extractStateFromLog, domainSectionExtract, if_pos hd, hld]
      | ok d =>
        rw [hld] at hsafe
        cases d with
        | dict dfs =>
          rw [Bool.and_eq_true] at hsafe
          obtain ⟨htool, hprep⟩ := hsafe
          cases hto : pyGetD dfs "tool_output" (.dict []) with
          | dict tfs =>
            cases hmem : dictLookup tfs "account_number" with
            | none =>
              have hdse : domainSectionExtract loads s = .ok (some zeroState) := by
                rw [domainSectionExtract, if_pos hd, hld]
                simp [hto, pyInContainer, hmem]
              obtain ⟨st, hst⟩ := prepSection_ok_of_safe loads s zeroState hprep
              exact ⟨st, by rw [extractStateFromLog, hdse]; exact hst⟩
            | some acct =>
              have hdse : domainSectionExtract loads s
                  = .ok (some (pySetKey zeroState "selected_account" acct)) := by
                rw [domainSectionExtract, if_pos hd, hld]
                simp [hto, pyInContainer, hmem]
              obtain ⟨st, hst⟩ := prepSection_ok_of_safe loads s
                (pySetKey zeroState "selected_account" acct) hprep
              exact ⟨st, by rw [extractStateFromLog, hdse]; exact hst⟩
          | list xs =>
            rw [hto] at htool
            have hany : (xs.any fun x => pyEqStr x "account_number") = false := by
              simpa using htool
            have hdse : domainSectionExtract loads s = .ok (some zeroState) := by
              rw [domainSectionExtract, if_pos hd, hld]
              simp [hto, pyInContainer, hany]
            obtain ⟨st, hst⟩ := prepSection_ok_of_safe loads s zeroState hprep
            exact ⟨st, by rw [extractStateFromLog, hdse]; exact hst⟩
          | str t =>
            rw [hto] at htool
            have hni : pyInStr "account_number" t = false := by
              simpa using htool
            have hdse : domainSectionExtract loads s = .ok (some zeroState) := by
              rw [domainSectionExtract, if_pos hd, hld]
              simp [hto, pyInContainer, hni]
            obtain ⟨st, hst⟩ := prepSection_ok_of_safe loads s zeroState hprep
            exact ⟨st, by rw [extractStateFromLog, hdse]; exact hst⟩
          | none => simp [hto] at htool
          | bool b => simp [hto] at htool
          | int n => simp [hto] at htool
        | none => simp at hsafe
        | bool b => simp at hsafe
        | int n => simp at hsafe
        | str t => simp at hsafe
        | list xs => simp at hsafe
    · rw [if_neg hd] at hsafe
      have hdse : domainSectionExtract loads s = .ok (some zeroState) := by
        rw [domainSectionExtract, if_neg hd]
      obtain ⟨st, hst⟩ := prepSection_ok_of_safe loads s zeroState hsafe
      exact ⟨st, by rw [extractStateFromLog, hdse]; exact hst⟩
  | list xs =>
    rw [safeLogForExtract] at hsafe
    rw [Bool.and_eq_true] at hsafe
    obtain ⟨h1, h2⟩ := hsafe
    simp at h1 h2
    refine ⟨zeroState, ?_⟩
    rw [extractStateFromLog]
    rw [if_neg, if_neg]
    · intro hx
      rw [List.any_eq_true] at hx
      obtain ⟨x, hx1, hx2⟩ := hx
      exact absurd hx2 (by simp [h2 x hx1])
    · intro hx
      rw [List.any_eq_true] at hx
      obtain ⟨x, hx1, hx2⟩ := hx
      exact absurd hx2 (by simp [h1 x hx1])
  | dict fs =>
    rw [safeLogForExtract] at hsafe
    rw [Bool.and_eq_true] at hsafe
    obtain ⟨h1, h2⟩ := hsafe
    refine ⟨zeroState, ?_⟩
    rw [extractStateFromLog]
    rw [if_neg, if_neg]
    · simp_all
    · simp_all
  | none => simp [safeLogForExtract] at hsafe
  | bool b => simp [safeLogForExtract] at hsafe
  | int n => simp [safeLogForExtract] at hsafe

/-- C6 (corrected): extraction is exception-free exactly on the safe set: an
empty history yields the zero state; a marker-free string log yields the zero
state; decode failures are swallowed; but outside the safe set (non-dict
latest entry, non-string log, non-dict decoded payload, ill-typed
tool_output) extraction raises. -/
theorem extract_total_on_safe_histories :
    (∀ (loads : String → Except Unit PyVal) (history : List PyVal),
      safeHistoryForExtract loads history = true →
      ∃ st, extractStateFromHistory loads history = .ok st)
    ∧ (∀ loads : String → Except Unit PyVal,
      extractStateFromHistory loads ([] : List PyVal) = .ok zeroState)
    ∧ (∀ (loads : String → Except Unit PyVal) (history : List PyVal) (lfs : PyDict)
        (s : String),
      pyGetD lfs "agent_log" (.str "") = .str s →
      pyInStr "Domain Agent Output:" s = false →
      pyInStr "Preprocessing Agent Output:" s = false →
      extractStateFromHistory loads (history ++ [.dict lfs]) = .ok zeroState) := by
  refine ⟨?_, fun loads => rfl, ?_⟩
  · intro loads history hsafe
    rw [safeHistoryForExtract] at hsafe
    rw [extractStateFromHistory]
    cases hl : history.getLast? with
    | none => exact ⟨zeroState, rfl⟩
    | some latest =>
      rw [hl] at hsafe
      cases latest with
      | dict lfs => exact extractLog_ok_of_safe loads _ hsafe
      | none => simp at hsafe
      | bool b => simp at hsafe
      | int n => simp at hsafe
      | str t => simp at hsafe
      | list xs => simp at hsafe
  · intro loads history lfs s hlog hd hp
    rw [extractStateFromHistory, List.getLast?_concat]
    show extractStateFromLog loads (pyGetD lfs "agent_log" (.str "")) = .ok zeroState
    rw [hlog, extractStateFromLog]
    have hdse : domainSectionExtract loads s = .ok (some zeroState) := by
      rw [domainSectionExtract, if_neg (by simp [hd])]
    rw [hdse]
    show prepSectionExtract loads s zeroState = .ok zeroState
    rw [prepSectionExtract, if_neg (by simp [hp])]

/-- Witness for C6 at a concrete marker-free history and a concrete saved
turn: extraction returns a state without raising. -/
theorem extract_total_on_safe_histories_witness :
    safeHistoryForExtract witnessLoadsFail [.dict [("agent_log", .str "hello")]] = true
    ∧ (∃ st, extractStateFromHistory witnessLoadsFail [.dict [("agent_log", .str "hello")]]
        = .ok st)
    ∧ pyGetD [("agent_log", PyVal.str "hello")] "agent_log" (.str "") = .str "hello"
    ∧ extractStateFromHistory witnessLoadsFail ([] ++ [.dict [("agent_log", .str "hello")]])
        = .ok zeroState :=
  ⟨by decide,
   extract_total_on_safe_histories.1 witnessLoadsFail [.dict [("agent_log", .str "hello")]]
     (by decide),
   rfl,
   extract_total_on_safe_histories.2.2 witnessLoadsFail [] [("agent_log", .str "hello")]
     "hello" rfl (by decide) (by decide)⟩

/-- Any successful recording keeps the context well-formed. -/
theorem updateContext_preserves (ctx : PyDict) (name : String) (result : PyDict)
    (ars : PyDict) (n : Int) (c2 : PyDict)
    (hars : dictLookup ctx "agent_results" = some (.dict ars))
    (hdep : dictLookup ctx "depth" = some (.int n))
    (h : updateContextWithResult ctx name result = .ok c2) :
    ∃ ars2 m, dictLookup c2 "agent_results" = some (.dict ars2)
      ∧ dictLookup c2 "depth" = some (.int m) := by
  have h1d : dictLookup (pySetKey ctx "agent_results"
      (.dict (pySetKey ars name (.dict result)))) "depth" = some (.int n) := by
    simp [dictLookup_pySetKey_ne, hdep]
  by_cases hp : name = "preprocessing"
  · subst hp
    simp only [updateContextWithResult, hars, h1d] at h
    simp at h
    subst h
    exact ⟨pySetKey ars "preprocessing" (.dict result), n + 1,
      by simp [dictLookup_pySetKey_ne, dictLookup_pySetKey_self],
      by simp [dictLookup_pySetKey_ne, dictLookup_pySetKey_self]⟩
  · by_cases hd : name = "domain"
    · subst hd
      simp only [updateContextWithResult, hars, h1d] at h
      cases hto : pyGetD result "tool_output" (.dict []) with
      | dict tfs =>
        rw [hto] at h
        cases hmem : dictLookup tfs "account_number" with
        | some acct =>
          simp [pyInContainer, hmem] at h
          subst h
          exact ⟨pySetKey ars "domain" (.dict result), n + 1,
            by simp [dictLookup_pySetKey_ne, dictLookup_pySetKey_self],
            by simp [dictLookup_pySetKey_ne, dictLookup_pySetKey_self]⟩
        | none =>
          simp [pyInContainer, hmem] at h
          subst h
          exact ⟨pySetKey ars "domain" (.dict result), n + 1,
            by simp [dictLookup_pySetKey_ne, dictLookup_pySetKey_self],
            by simp [dictLookup_pySetKey_ne, dictLookup_pySetKey_self]⟩
      | list xs =>
        rw [hto] at h
        cases hany : xs.any (fun x => pyEqStr x "account_number") with
        | true => simp [pyInContainer, hany] at h
        | false =>
          simp [pyInContainer, hany] at h
          subst h
          exact ⟨pySetKey ars "domain" (.dict result), n + 1,
            by simp [dictLookup_pySetKey_ne, dictLookup_pySetKey_self],
            by simp [dictLookup_pySetKey_ne, dictLookup_pySetKey_self]⟩
      | str t =>
        rw [hto] at h
        cases hsub : pyInStr "account_number" t with
        | true => simp [pyInContainer, hsub] at h
        | false =>
          simp [pyInContainer, hsub] at h
          subst h
          exact ⟨pySetKey ars "domain" (.dict result), n + 1,
            by simp [dictLookup_pySetKey_ne, dictLookup_pySetKey_self],
            by simp [dictLookup_pySetKey_ne, dictLookup_pySetKey_self]⟩
      | none => rw [hto] at h; simp [pyInContainer] at h
      | bool b => rw [hto] at h; simp [pyInContainer] at h
      | int m => rw [hto] at h; simp [pyInContainer] at h
    · simp only [updateContextWithResult, hars, h1d] at h
      simp [hp, hd] at h
      subst h
      exact ⟨pySetKey ars name (.dict result), n + 1,
        by simp [dictLookup_pySetKey_ne, dictLookup_pySetKey_self],
        by simp [dictLookup_pySetKey_ne, dictLookup_pySetKey_self]⟩

/-- With a well-formed context (agent_results a dict, depth an int) and, for
the domain stage, a dict-shaped tool_output, recording a result succeeds and
keeps the context well-formed. -/
theorem updateContext_total (ctx : PyDict) (name : String) (result : PyDict)
    (ars : PyDict) (n : Int)
    (hars : dictLookup ctx "agent_results" = some (.dict ars))
    (hdep : dictLookup ctx "depth" = some (.int n))
    (hdom : name = "domain" → ∃ tfs, pyGetD result "tool_output" (.dict []) = .dict tfs) :
    ∃ c2 ars2 m, updateContextWithResult ctx name result = .ok c2
      ∧ dictLookup c2 "agent_results" = some (.dict ars2)
      ∧ dictLookup c2 "depth" = some (.int m) := by
  cases hu : updateContextWithResult ctx name result with
  | ok c2 =>
    obtain ⟨ars2, m, ha, hd2⟩ := updateContext_preserves ctx name result ars n c2 hars hdep hu
    exact ⟨c2, ars2, m, rfl, ha, hd2⟩
  | error e =>
    exfalso
    have h1d : dictLookup (pySetKey ctx "agent_results"
        (.dict (pySetKey ars name (.dict result)))) "depth" = some (.int n) := by
      simp [dictLookup_pySetKey_ne, hdep]
    simp only [updateContextWithResult, hars, h1d] at hu
    by_cases hp : name = "preprocessing"
    · subst hp
      simp at hu
    · by_cases hd : name = "domain"
      · subst hd
        obtain ⟨tfs, htfs⟩ := hdom rfl
        simp only [hp, if_false, if_pos rfl, htfs] at hu
        cases hmem : dictLookup tfs "account_number" <;>
          simp [pyInContainer, hmem] at hu
      · simp [hp, hd] at hu

/-- One stage block always completes on a well-formed context whose default
is recordable, and keeps the context well-formed. -/
theorem stageStep_total (ctx : PyDict) (name : String) (outcome : Except String PyDict)
    (defaultResult : PyDict) (ars : PyDict) (n : Int)
    (hars : dictLookup ctx "agent_results" = some (.dict ars))
    (hdep : dictLookup ctx "depth" = some (.int n))
    (hdomDef : name = "domain" →
      ∃ tfs, pyGetD defaultResult "tool_output" (.dict []) = .dict tfs) :
    ∃ r c2 ars2 m, stageStep ctx name outcome defaultResult = .ok (r, c2)
      ∧ dictLookup c2 "agent_results" = some (.dict ars2)
      ∧ dictLookup c2 "depth" = some (.int m) := by
  obtain ⟨cd, arsd, md, hupd, had, hdd⟩ :=
    updateContext_total ctx name defaultResult ars n hars hdep hdomDef
  cases outcome with
  | error e =>
    exact ⟨defaultResult, cd, arsd, md, by simp [stageStep, hupd], had, hdd⟩
  | ok r =>
    cases hur : updateContextWithResult ctx name r with
    | ok c2 =>
      obtain ⟨ars2, m, ha2, hd2⟩ := updateContext_preserves ctx name r ars n c2 hars hdep hur
      exact ⟨r, c2, ars2, m, by simp [stageStep, hur], ha2, hd2⟩
    | error e1 =>
      exact ⟨defaultResult, cd, arsd, md, by simp [stageStep, hur, hupd], had, hdd⟩

/-- A stage whose call raises is handled identically to a stage that returns
the documented default: both record the default. -/
theorem stageStep_error_eq_ok_default (ctx : PyDict) (name : String) (e : String)
    (defaultResult : PyDict) :
    stageStep ctx name (.error e) defaultResult
      = stageStep ctx name (.ok defaultResult) defaultResult := by
  simp only [stageStep]
  cases h : updateContextWithResult ctx name defaultResult <;> simp [h]

/-- C7: v1 process_chat degrades but never aborts on stage failure.  First
conjunct: on a well-formed initial context, whatever the four stage calls
and the renderer do (each may raise), the turn streams a response and closes
with the complete marker.  Second conjunct: only an exception outside the
per-stage handlers (here at context creation) produces the error marker.
Remaining conjuncts: a turn in which one stage raises is event-identical to
the turn in which that stage returned its documented default, for each of the
four stages. -/
theorem processChatV1_degrade_dont_abort :
    (∀ (ctx0 ars0 : PyDict) (d0 : Int) rewServ prepServ supServ domServ genFinal
       (testMode : Bool) (userQuery : String),
      dictLookup ctx0 "agent_results" = some (.dict ars0) →
      dictLookup ctx0 "depth" = some (.int d0) →
      ∃ resp, processChatV1 (.ok ctx0) rewServ prepServ supServ domServ genFinal
          testMode userQuery
        = streamEvents testMode resp ++ [.complete])
    ∧ (∀ rewServ prepServ supServ domServ genFinal (testMode : Bool)
        (userQuery : String) (e : PyExn),
      processChatV1 (.error e) rewServ prepServ supServ domServ genFinal testMode userQuery
        = [.error ("죄송합니다. 처리 중 오류가 발생했습니다: " ++ pyExnText e)])
    ∧ (∀ (ctx0 : PyDict) (e : String) prepServ supServ domServ genFinal
        (testMode : Bool) (userQuery : String),
      processChatV1 (.ok ctx0) (fun _ _ => .error e) prepServ supServ domServ genFinal
          testMode userQuery
        = processChatV1 (.ok ctx0) (fun _ _ => .ok (defaultRewritingResult userQuery))
            prepServ supServ domServ genFinal testMode userQuery)
    ∧ (∀ (ctx0 : PyDict) (e : String) rewServ supServ domServ genFinal
        (testMode : Bool) (userQuery : String),
      processChatV1 (.ok ctx0) rewServ (fun _ _ => .error e) supServ domServ genFinal
          testMode userQuery
        = processChatV1 (.ok ctx0) rewServ
            (fun r _ => .ok (defaultPreprocessingResult r userQuery))
            supServ domServ genFinal testMode userQuery)
    ∧ (∀ (ctx0 : PyDict) (e : String) rewServ prepServ domServ genFinal
        (testMode : Bool) (userQuery : String),
      processChatV1 (.ok ctx0) rewServ prepServ (fun _ _ => .error e) domServ genFinal
          testMode userQuery
        = processChatV1 (.ok ctx0) rewServ prepServ
            (fun p c => .ok (defaultSupervisorResult p userQuery c))
            domServ genFinal testMode userQuery)
    ∧ (∀ (ctx0 : PyDict) (e : String) rewServ prepServ supServ genFinal
        (testMode : Bool) (userQuery : String),
      processChatV1 (.ok ctx0) rewServ prepServ supServ (fun _ _ => .error e) genFinal
          testMode userQuery
        = processChatV1 (.ok ctx0) rewServ prepServ supServ
            (fun _ c => .ok (defaultDomainResultV1 c))
            genFinal testMode userQuery) := by
  refine ⟨?_, fun _ _ _ _ _ _ _ _ => rfl, ?_, ?_, ?_, ?_⟩
  · intro ctx0 ars0 d0 rewServ prepServ supServ domServ genFinal testMode userQuery hars hdep
    obtain ⟨r1, c1, a1, n1, h1, h1a, h1d⟩ := stageStep_total ctx0 "rewriting"
      (rewServ userQuery ctx0) (defaultRewritingResult userQuery) ars0 d0 hars hdep
      (fun h => absurd h (by decide))
    obtain ⟨r2, c2, a2, n2, h2, h2a, h2d⟩ := stageStep_total c1 "preprocessing"
      (prepServ r1 c1) (defaultPreprocessingResult r1 userQuery) a1 n1 h1a h1d
      (fun h => absurd h (by decide))
    obtain ⟨r3, c3, a3, n3, h3, h3a, h3d⟩ := stageStep_total c2 "supervisor"
      (supServ r2 c2) (defaultSupervisorResult r2 userQuery c2) a2 n2 h2a h2d
      (fun h => absurd h (by decide))
    obtain ⟨r4, c4, a4, n4, h4, h4a, h4d⟩ := stageStep_total c3 "domain"
      (domServ r3 c3) (defaultDomainResultV1 c3) a3 n3 h3a h3d
      (fun _ => ⟨[("response", .str "일반 문의에 대한 답변입니다.")], rfl⟩)
    cases hg : genFinal r4 userQuery c4 with
    | ok s =>
      exact ⟨s, by simp [processChatV1, processChatV1Core, h1, h2, h3, h4, hg]⟩
    | error e =>
      exact ⟨"죄송합니다. 응답 생성 중 오류가 발생했습니다.",
        by simp [processChatV1, processChatV1Core, h1, h2, h3, h4, hg]⟩
  · intro ctx0 e prepServ supServ domServ genFinal testMode userQuery
    simp only [processChatV1, processChatV1Core, stageStep_error_eq_ok_default]
  · intro ctx0 e rewServ supServ domServ genFinal testMode userQuery
    simp only [processChatV1, processChatV1Core, stageStep_error_eq_ok_default]
  · intro ctx0 e rewServ prepServ domServ genFinal testMode userQuery
    simp only [processChatV1, processChatV1Core, stageStep_error_eq_ok_default]
  · intro ctx0 e rewServ prepServ supServ genFinal testMode userQuery
    simp only [processChatV1, processChatV1Core, stageStep_error_eq_ok_default]

/-- Witness for C7: with every stage and the renderer raising, a turn on a
fresh well-formed context still streams the generic answer and completes. -/
theorem processChatV1_degrade_dont_abort_witness :
    dictLookup [("agent_results", PyVal.dict []), ("depth", PyVal.int 0)] "agent_results"
      = some (.dict [])
    ∧ dictLookup [("agent_results", PyVal.dict []), ("depth", PyVal.int 0)] "depth"
      = some (.int 0)
    ∧ ∃ resp, processChatV1 (.ok [("agent_results", PyVal.dict []), ("depth", PyVal.int 0)])
        (fun _ _ => .error "llm down") (fun _ _ => .error "llm down")
        (fun _ _ => .error "llm down") (fun _ _ => .error "llm down")
        (fun _ _ _ => .error "render failed") true "잔액 확인해줘"
        = streamEvents true resp ++ [.complete] :=
  ⟨rfl, rfl,
   processChatV1_degrade_dont_abort.1 [("agent_results", PyVal.dict []), ("depth", PyVal.int 0)]
     [] 0 (fun _ _ => .error "llm down") (fun _ _ => .error "llm down")
     (fun _ _ => .error "llm down") (fun _ _ => .error "llm down")
     (fun _ _ _ => .error "render failed") true "잔액 확인해줘" rfl rfl⟩
